import Mathlib

/-!
Verification of the cc_azprune scan/classification core against its source.

The Python modules `costs.py`, `resource_info.py`, the 22 detector modules,
`scanner.py` and the scan loop of `app.py` are shallowly embedded below.
Python floats are modelled as exact rationals (every constant in the source
is a short decimal, and `round(x, 2)` is modelled as round-half-to-even on
the exact value, which is what Python performs on these inputs); Python
strings are modelled as Lean strings over their ASCII fragment.
-/

namespace AzPrune

/-! ## Python string primitives (ASCII fragment) -/

/-- ASCII lower-casing of one character, as `str.lower` acts on A..Z. -/
def lowerChar (c : Char) : Char :=
  if 65 ≤ c.toNat ∧ c.toNat ≤ 90 then Char.ofNat (c.toNat + 32) else c

/-- ASCII upper-casing of one character, as `str.upper` acts on a..z. -/
def upperChar (c : Char) : Char :=
  if 97 ≤ c.toNat ∧ c.toNat ≤ 122 then Char.ofNat (c.toNat - 32) else c

/-- ASCII letter test (`str.isalpha` on the ASCII range). -/
def alphaCh (c : Char) : Bool :=
  (65 ≤ c.toNat ∧ c.toNat ≤ 90) ∨ (97 ≤ c.toNat ∧ c.toNat ≤ 122)

/-- ASCII digit test. -/
def digitCh (c : Char) : Bool := 48 ≤ c.toNat ∧ c.toNat ≤ 57

/-- Python `s.lower()`. -/
def pyLower (s : String) : String := String.mk (s.data.map lowerChar)

/-- Worker for `str.title`: a letter is upper-cased when the previous
character is not a letter, lower-cased otherwise. -/
def pyTitleGo : Bool → List Char → List Char
  | _, [] => []
  | prevAlpha, c :: cs =>
    (if alphaCh c then (if prevAlpha then lowerChar c else upperChar c) else c)
      :: pyTitleGo (alphaCh c) cs

/-- Python `s.title()` (ASCII fragment). -/
def pyTitle (s : String) : String := String.mk (pyTitleGo false s.data)

/-- Python `s.split("/")` on character lists: split at every slash,
keeping empty segments. -/
def splitSlash : List Char → List (List Char)
  | [] => [[]]
  | c :: cs =>
    let r := splitSlash cs
    if c = '/' then [] :: r
    else
      match r with
      | [] => [[c]]
      | h :: t => (c :: h) :: t

/-- Python `s.split("/")[-1]`: the segment after the last slash. -/
def lastSegment (s : String) : String :=
  String.mk ((splitSlash s.data).getLastD [])

/-- Is the first list a leading segment of the second? -/
def isLead : List Char → List Char → Bool
  | [], _ => true
  | _ :: _, [] => false
  | a :: as, b :: bs => a = b && isLead as bs

/-- Does the second list contain the first as a contiguous segment? -/
def hasSub (p : List Char) : List Char → Bool
  | [] => isLead p []
  | c :: t => isLead p (c :: t) || hasSub p t

/-- Python `needle in hay` on strings. -/
def pyIn (needle hay : String) : Bool := hasSub needle.data hay.data

/-- Python `s.endswith(suffix)`. -/
def endsWithL (suf l : List Char) : Bool := isLead suf.reverse l.reverse

/-- Python `s.replace(sub, "")` for one-character `sub` (removes every
occurrence of the character). -/
def removeChar (c : Char) (s : String) : String :=
  String.mk (s.data.filter (fun a => a ≠ c))

/-- Python `s.replace(pat, rep)` for a nonempty pattern `p0 :: ps`:
left-to-right, non-overlapping. -/
def replaceL (p0 : Char) (ps rep : List Char) : List Char → List Char
  | [] => []
  | c :: rest =>
    if isLead (p0 :: ps) (c :: rest) then rep ++ replaceL p0 ps rep (rest.drop ps.length)
    else c :: replaceL p0 ps rep rest
termination_by l => l.length
decreasing_by
  · simp only [List.length_drop, List.length_cons]; omega
  · simp only [List.length_cons]; omega

/-- Python `s.replace(pat, rep)` (the sources only call it with a nonempty
pattern; an empty pattern is mapped to the identity here). -/
def pyReplace (s pat rep : String) : String :=
  match pat.data with
  | [] => s
  | p0 :: ps => String.mk (replaceL p0 ps rep.data s.data)

/-- Python `" | ".join(parts)` as used to assemble `details`. -/
def joinPipe (parts : List String) : String := String.intercalate " | " parts

/-- Python rendering of an optional string in an f-string: `None` prints
as the four characters `None`. -/
def pyShow : Option String → String
  | none => "None"
  | some s => s

/-! ## Python numeric rounding and formatting -/

/-- Round-half-to-even to an integer, Python `round(x)` on exact values. -/
def roundHalfEven (q : ℚ) : ℤ :=
  if q - ⌊q⌋ < 1/2 then ⌊q⌋
  else if 1/2 < q - ⌊q⌋ then ⌊q⌋ + 1
  else if ⌊q⌋ % 2 = 0 then ⌊q⌋ else ⌊q⌋ + 1

/-- Python `round(x, 2)` on exact decimal values. -/
def round2 (q : ℚ) : ℚ := (roundHalfEven (q * 100) : ℚ) / 100

/-- Decimal digits of a natural number, most significant first. -/
def natDigits (n : ℕ) : List Char := Nat.toDigits 10 n

/-- Insert a comma after every three characters of a reversed digit list. -/
def commaRev : List Char → List Char
  | a :: b :: c :: d :: rest => a :: b :: c :: ',' :: commaRev (d :: rest)
  | l => l

/-- Python `f"{n:,}"` for a natural number: thousands separators. -/
def withCommas (n : ℕ) : String :=
  String.mk ((commaRev (natDigits n).reverse).reverse)

/-- Python `f"{q:.2f}"`: fixed two decimal places (nonnegative-zero sign,
which is all the sources produce). -/
def fmt2 (q : ℚ) : String :=
  (if roundHalfEven (q * 100) < 0 then "-" else "")
    ++ toString ((roundHalfEven (q * 100)).natAbs / 100) ++ "."
    ++ (if (roundHalfEven (q * 100)).natAbs % 100 < 10 then "0" else "")
    ++ toString ((roundHalfEven (q * 100)).natAbs % 100)

/-! ## costs.py — the Cost Model -/

/-- costs.py: NICs are free. -/
def estimate_nic_cost : ℚ := 0.0

/-- costs.py: public IP monthly cost by SKU. -/
def estimate_public_ip_cost (sku : String) : ℚ :=
  if pyLower sku = "standard" then 4.00 else 3.65

/-- costs.py: managed-disk monthly cost from size and tier. -/
def estimate_disk_cost (size_gb : ℤ) (tier : String) : ℚ :=
  round2 (size_gb *
    (if pyIn "premium" (pyLower tier) then 0.15
     else if pyIn "standardssd" (pyLower tier) then 0.075
     else 0.05))

/-- costs.py: Application Gateway monthly cost. -/
def estimate_app_gateway_cost (tier : String) (capacity : ℤ) : ℚ :=
  round2 ((if pyIn "waf" (pyLower tier) then 0.36 else 0.25) * 730 +
    (if pyIn "waf" (pyLower tier) then 0.0144 else 0.008) * capacity * 730)

/-- costs.py: the VNet Gateway per-SKU rate table. -/
def vnet_gateway_sku_costs : List (String × ℚ) :=
  [("basic", 27.00), ("vpngw1", 140.00), ("vpngw1az", 196.00),
   ("vpngw2", 361.00), ("vpngw2az", 506.00), ("vpngw3", 927.00),
   ("vpngw3az", 1298.00), ("vpngw4", 1825.00), ("vpngw4az", 2555.00),
   ("vpngw5", 3650.00), ("vpngw5az", 5110.00),
   ("ergw1az", 214.00), ("ergw2az", 536.00), ("ergw3az", 1072.00),
   ("standard", 214.00), ("highperformance", 536.00),
   ("ultrahighperformance", 1072.00)]

/-- costs.py: `sku.lower().replace("-", "").replace("_", "")`. -/
def normSku (sku : String) : String :=
  removeChar '_' (removeChar '-' (pyLower sku))

/-- costs.py: VNet Gateway monthly cost by normalized SKU, default 140. -/
def estimate_vnet_gateway_cost (sku : String) : ℚ :=
  ((vnet_gateway_sku_costs.lookup (normSku sku)).getD 140.00)

/-- costs.py: NAT Gateway monthly cost (fixed hourly plus data). -/
def estimate_nat_gateway_cost (data_processed_gb : ℚ) : ℚ :=
  round2 (0.045 * 730 + 0.045 * data_processed_gb)

/-- costs.py: Load Balancer monthly cost; Basic is free, the first five
rules of Standard are free. -/
def estimate_load_balancer_cost (sku : String) (rules : ℤ) : ℚ :=
  if pyLower sku = "basic" then 0.0
  else round2 (0.025 * 730 + 0.005 * (max 0 (rules - 5) : ℤ) * 730)

/-- costs.py: the SQL elastic pool per-eDTU rate table. -/
def sql_pool_tier_rates : List (String × ℚ) :=
  [("basic", 0.0075), ("standard", 0.0225), ("premium", 0.075)]

/-- costs.py: SQL Elastic Pool monthly cost; the tier key is only
lower-cased (no delimiter stripping), default rate 0.0225. -/
def estimate_sql_elastic_pool_cost (dtu : ℤ) (tier : String) : ℚ :=
  round2 (dtu * ((sql_pool_tier_rates.lookup (pyLower tier)).getD 0.0225) * 730)

/-- costs.py: the App Service Plan per-size rate table. -/
def app_service_plan_sku_costs : List (String × ℚ) :=
  [("f1", 0.0), ("free", 0.0), ("d1", 10.0), ("shared", 10.0),
   ("b1", 55.0), ("b2", 109.0), ("b3", 219.0),
   ("s1", 73.0), ("s2", 146.0), ("s3", 292.0),
   ("p1", 146.0), ("p2", 292.0), ("p3", 584.0),
   ("p1v2", 88.0), ("p2v2", 175.0), ("p3v2", 350.0),
   ("p1v3", 104.0), ("p2v3", 208.0), ("p3v3", 416.0)]

/-- costs.py: App Service Plan monthly cost keyed by normalized size
(the tier argument is accepted but unused, as in the source);
default 73.0 (S1). -/
def estimate_app_service_plan_cost (_tier size : String) : ℚ :=
  ((app_service_plan_sku_costs.lookup (normSku size)).getD 73.0)

/-- costs.py: DDoS Protection Plan fixed monthly cost. -/
def estimate_ddos_plan_cost : ℚ := 2944.00

/-- costs.py: Traffic Manager monthly cost from endpoints and queries. -/
def estimate_traffic_manager_cost (endpoints : ℤ) (queries_millions : ℚ) : ℚ :=
  round2 (0.54 * queries_millions + 0.36 * endpoints)

/-- costs.py: Front Door WAF policy monthly cost from custom rules. -/
def estimate_frontdoor_waf_cost (rules : ℤ) : ℚ :=
  round2 (5.0 + 1.0 * rules)

/-- costs.py: NSGs are free. -/
def estimate_nsg_cost : ℚ := 0.0

/-- costs.py: route tables are free. -/
def estimate_route_table_cost : ℚ := 0.0

/-- costs.py: availability sets are free. -/
def estimate_availability_set_cost : ℚ := 0.0

/-- costs.py: IP groups are free. -/
def estimate_ip_group_cost : ℚ := 0.0

/-- costs.py: Private DNS zone monthly cost (per-zone). -/
def estimate_private_dns_zone_cost : ℚ := 0.50

/-- costs.py: Private Endpoint monthly cost. -/
def estimate_private_endpoint_cost : ℚ := round2 (0.01 * 730)

/-- costs.py: resource groups are free. -/
def estimate_resource_group_cost : ℚ := 0.0

/-- costs.py: API connections are free. -/
def estimate_api_connection_cost : ℚ := 0.0

/-- costs.py: App Service certificates have no recurring cost. -/
def estimate_certificate_cost : ℚ := 0.0

/-- costs.py `format_cost`: `"$0"` for zero, thousands separator from
1000 up, rounded integer from 100 up, two decimals below. -/
def format_cost (cost : ℚ) : String :=
  if cost = 0 then "$0"
  else if 1000 ≤ cost then "$" ++ withCommas (roundHalfEven cost).toNat
  else if 100 ≤ cost then "$" ++ toString (roundHalfEven cost)
  else "$" ++ fmt2 cost

/-! ## Evaluation lemmas for the numeric layer -/

theorem roundHalfEven_int (n : ℤ) : roundHalfEven (n : ℚ) = n := by
  unfold roundHalfEven
  rw [Int.floor_intCast]
  norm_num

theorem roundHalfEven_eq {q : ℚ} {n : ℤ} (h : q = (n : ℚ)) : roundHalfEven q = n := by
  rw [h, roundHalfEven_int]

theorem round2_eq {q : ℚ} {n : ℤ} (h : q * 100 = (n : ℚ)) : round2 q = (n : ℚ) / 100 := by
  unfold round2
  rw [roundHalfEven_eq h]

theorem roundHalfEven_nonneg {q : ℚ} (h : 0 ≤ q) : 0 ≤ roundHalfEven q := by
  unfold roundHalfEven
  have hf : (0 : ℤ) ≤ ⌊q⌋ := Int.floor_nonneg.mpr h
  split_ifs <;> omega

theorem round2_nonneg {q : ℚ} (h : 0 ≤ q) : 0 ≤ round2 q := by
  unfold round2
  have := roundHalfEven_nonneg (q := q * 100) (by positivity)
  positivity

/-! ## Character-level lemmas -/

theorem char_toNat_ofNat {n : ℕ} (h : n.isValidChar) : (Char.ofNat n).toNat = n := by
  unfold Char.ofNat
  rw [dif_pos h]
  rfl

theorem char_toNat_inj {a b : Char} (h : a.toNat = b.toNat) : a = b := by
  apply Char.ext
  exact UInt32.toNat.inj h

theorem lowerChar_toNat (c : Char) :
    (lowerChar c).toNat = if 65 ≤ c.toNat ∧ c.toNat ≤ 90 then c.toNat + 32 else c.toNat := by
  unfold lowerChar
  split
  · exact char_toNat_ofNat (by unfold Nat.isValidChar; omega)
  · rfl

theorem upperChar_toNat (c : Char) :
    (upperChar c).toNat = if 97 ≤ c.toNat ∧ c.toNat ≤ 122 then c.toNat - 32 else c.toNat := by
  unfold upperChar
  split
  · exact char_toNat_ofNat (by unfold Nat.isValidChar; omega)
  · rfl

/-- Lower-casing one character determines its alphabetic status. -/
theorem alphaCh_of_lowerChar_eq {a b : Char} (h : lowerChar a = lowerChar b) :
    alphaCh a = alphaCh b := by
  have ht := congrArg Char.toNat h
  rw [lowerChar_toNat, lowerChar_toNat] at ht
  unfold alphaCh
  rw [decide_eq_decide]
  split at ht <;> split at ht <;> omega

/-- Lower-casing one character determines its upper-cased form. -/
theorem upperChar_of_lowerChar_eq {a b : Char} (h : lowerChar a = lowerChar b) :
    upperChar a = upperChar b := by
  have ht := congrArg Char.toNat h
  rw [lowerChar_toNat, lowerChar_toNat] at ht
  apply char_toNat_inj
  rw [upperChar_toNat, upperChar_toNat]
  split at ht <;> split at ht <;> split <;> split <;> omega

/-- Lower-casing is idempotent on characters. -/
theorem lowerChar_lowerChar (c : Char) : lowerChar (lowerChar c) = lowerChar c := by
  apply char_toNat_inj
  rw [lowerChar_toNat, lowerChar_toNat]
  split_ifs <;> omega

/-- The slash character has code 47. -/
theorem slash_toNat : ('/').toNat = 47 := rfl

/-- Lower-casing leaves the slash fixed and maps nothing else to it. -/
theorem lowerChar_eq_slash {c : Char} : lowerChar c = '/' ↔ c = '/' := by
  constructor
  · intro h
    have ht := congrArg Char.toNat h
    rw [lowerChar_toNat, slash_toNat] at ht
    apply char_toNat_inj
    rw [slash_toNat]
    split at ht <;> omega
  · intro h
    subst h
    rfl

/-- Lower-casing fixes any character outside both letter ranges, and no
other character reaches it. -/
theorem lowerChar_eq_fixed {d : Char} (hd : ¬(65 ≤ d.toNat ∧ d.toNat ≤ 90))
    (hd2 : ¬(97 ≤ d.toNat ∧ d.toNat ≤ 122)) {c : Char} : lowerChar c = d ↔ c = d := by
  constructor
  · intro h
    have ht := congrArg Char.toNat h
    rw [lowerChar_toNat] at ht
    apply char_toNat_inj
    split at ht <;> omega
  · intro h
    subst h
    apply char_toNat_inj
    rw [lowerChar_toNat]
    rw [if_neg hd]

/-- A character that is not a letter is fixed by lower-casing. -/
theorem lowerChar_of_not_alpha {c : Char} (h : alphaCh c = false) : lowerChar c = c := by
  unfold alphaCh at h
  simp only [decide_eq_false_iff_not, not_or] at h
  apply char_toNat_inj
  rw [lowerChar_toNat]
  rw [if_neg h.1]

/-! ## String-level lemmas -/

theorem pyLower_data (s : String) : (pyLower s).data = s.data.map lowerChar := rfl

theorem pyLower_pyLower (s : String) : pyLower (pyLower s) = pyLower s := by
  unfold pyLower
  apply congrArg
  simp only [List.map_map]
  apply List.map_congr_left
  intro a _
  exact lowerChar_lowerChar a

/-- `pyTitleGo` depends on its input only through the lower-cased form. -/
theorem pyTitleGo_congr {l l' : List Char} (h : l.map lowerChar = l'.map lowerChar) :
    ∀ b, pyTitleGo b l = pyTitleGo b l' := by
  induction l generalizing l' with
  | nil =>
    cases l' with
    | nil => intro b; rfl
    | cons a as => simp at h
  | cons a as ih =>
    cases l' with
    | nil => simp at h
    | cons a' as' =>
      simp only [List.map_cons, List.cons.injEq] at h
      intro b
      unfold pyTitleGo
      rw [alphaCh_of_lowerChar_eq h.1, ih h.2]
      by_cases ha : alphaCh a' = true
      · rw [if_pos ha, if_pos ha]
        cases b with
        | true => rw [if_pos rfl, if_pos rfl, h.1]
        | false => rw [if_neg (by simp), if_neg (by simp), upperChar_of_lowerChar_eq h.1]
      · have hfa : alphaCh a' = false := by simpa using ha
        rw [if_neg ha, if_neg ha]
        have h1 := lowerChar_of_not_alpha hfa
        have h2 : lowerChar a = a := by
          rw [← alphaCh_of_lowerChar_eq h.1] at hfa
          exact lowerChar_of_not_alpha hfa
        rw [← h1, ← h2, h.1]

theorem splitSlash_ne_nil (l : List Char) : splitSlash l ≠ [] := by
  cases l with
  | nil => simp [splitSlash]
  | cons c cs =>
    unfold splitSlash
    split <;> simp
    split <;> simp

/-- `splitSlash` commutes with lower-casing. -/
theorem splitSlash_map_lower (l : List Char) :
    splitSlash (l.map lowerChar) = (splitSlash l).map (List.map lowerChar) := by
  induction l with
  | nil => rfl
  | cons c cs ih =>
    simp only [List.map_cons]
    unfold splitSlash
    rw [ih]
    by_cases hc : c = '/'
    · rw [if_pos (lowerChar_eq_fixed (by rw [slash_toNat]; omega) (by rw [slash_toNat]; omega)
        |>.mpr hc), if_pos hc]
      rfl
    · rw [if_neg fun hcl => hc ((lowerChar_eq_fixed (by rw [slash_toNat]; omega)
        (by rw [slash_toNat]; omega)).mp hcl), if_neg hc]
      rcases hs : splitSlash cs with _ | ⟨h0, t0⟩
      · exact absurd hs (splitSlash_ne_nil cs)
      · rfl

theorem getLastD_map {α β : Type} (f : α → β) (l : List α) (d : α) :
    (l.map f).getLastD (f d) = f (l.getLastD d) := by
  induction l generalizing d with
  | nil => rfl
  | cons a as ih =>
    cases as with
    | nil => rfl
    | cons b bs => simpa using ih (d := a)

/-- The last path segment of equal lower-cased strings titles identically. -/
theorem pyTitle_lastSegment_congr {s t : String} (h : pyLower s = pyLower t) :
    pyTitle (lastSegment s) = pyTitle (lastSegment t) := by
  have hd : s.data.map lowerChar = t.data.map lowerChar := congrArg String.data h
  unfold pyTitle lastSegment
  apply congrArg
  apply pyTitleGo_congr
  have hsplit := congrArg splitSlash hd
  rw [splitSlash_map_lower, splitSlash_map_lower] at hsplit
  have h1 := getLastD_map (List.map lowerChar) (splitSlash s.data) []
  have h2 := getLastD_map (List.map lowerChar) (splitSlash t.data) []
  simp only [List.map_nil] at h1 h2
  rw [← h1, ← h2, hsplit]

/-- Lower-casing commutes with removing a non-letter character. -/
theorem pyLower_removeChar {d : Char} (hd : ¬(65 ≤ d.toNat ∧ d.toNat ≤ 90))
    (hd2 : ¬(97 ≤ d.toNat ∧ d.toNat ≤ 122)) (s : String) :
    pyLower (removeChar d s) = removeChar d (pyLower s) := by
  unfold pyLower removeChar
  apply congrArg
  show (s.data.filter _).map lowerChar = _
  induction s.data with
  | nil => rfl
  | cons c cs ih =>
    by_cases hc : c = d
    · subst hc
      have h1 : lowerChar c = c := by
        apply char_toNat_inj
        rw [lowerChar_toNat]
        rw [if_neg hd]
      simp only [List.map_cons, List.filter_cons]
      rw [h1]
      simpa using ih
    · have h2 : lowerChar c ≠ d := fun hcl => hc ((lowerChar_eq_fixed hd hd2).mp hcl)
      simp only [List.map_cons, List.filter_cons]
      rw [if_pos (by simpa using hc), if_pos (by simpa using h2)]
      simpa using ih

theorem removeChar_removeChar (c : Char) (s : String) :
    removeChar c (removeChar c s) = removeChar c s := by
  unfold removeChar
  apply congrArg
  show (s.data.filter _).filter _ = _
  rw [List.filter_filter]
  apply List.filter_congr
  intro a _
  simp

theorem removeChar_comm (c d : Char) (s : String) :
    removeChar c (removeChar d s) = removeChar d (removeChar c s) := by
  unfold removeChar
  apply congrArg
  show (s.data.filter _).filter _ = (s.data.filter _).filter _
  rw [List.filter_filter, List.filter_filter]
  apply List.filter_congr
  intro a _
  simp [Bool.and_comm]

theorem dash_toNat : ('-').toNat = 45 := rfl

theorem underscore_toNat : ('_').toNat = 95 := rfl

theorem normSku_pyLower (s : String) : normSku (pyLower s) = normSku s := by
  unfold normSku
  rw [pyLower_pyLower]

theorem normSku_removeDash (s : String) : normSku (removeChar '-' s) = normSku s := by
  unfold normSku
  rw [pyLower_removeChar (by rw [dash_toNat]; omega) (by rw [dash_toNat]; omega),
    removeChar_removeChar]

theorem normSku_removeUnderscore (s : String) : normSku (removeChar '_' s) = normSku s := by
  unfold normSku
  rw [pyLower_removeChar (by rw [underscore_toNat]; omega) (by rw [underscore_toNat]; omega),
    removeChar_comm '-' '_', removeChar_removeChar]

/-! ## format_cost band lemmas -/

theorem format_cost_lt100 {q : ℚ} (h0 : q ≠ 0) (h2 : q < 100) :
    format_cost q = "$" ++ fmt2 q := by
  unfold format_cost
  rw [if_neg h0, if_neg (by linarith), if_neg (by linarith)]

theorem format_cost_mid {q : ℚ} (h1 : 100 ≤ q) (h2 : q < 1000) :
    format_cost q = "$" ++ toString (roundHalfEven q) := by
  unfold format_cost
  rw [if_neg (by intro h; rw [h] at h1; norm_num at h1), if_neg (by linarith), if_pos h1]

theorem format_cost_big {q : ℚ} (h1 : 1000 ≤ q) :
    format_cost q = "$" ++ withCommas (roundHalfEven q).toNat := by
  unfold format_cost
  rw [if_neg (by intro h; rw [h] at h1; norm_num at h1), if_pos h1]

theorem toString_nat_len1 {m : ℕ} (h : m < 10) : (toString m).length = 1 := by
  interval_cases m <;> rfl

theorem toString_nat_len2 {m : ℕ} (h1 : 10 ≤ m) (h2 : m < 100) : (toString m).length = 2 := by
  interval_cases m <;> rfl

/-- For a nonnegative argument `fmt2` produces a string with exactly two
characters after the decimal point. -/
theorem fmt2_shape {q : ℚ} (h0 : 0 ≤ q) :
    ∃ a b : String, fmt2 q = a ++ "." ++ b ∧ b.length = 2 := by
  unfold fmt2
  have hc : ¬ roundHalfEven (q * 100) < 0 :=
    not_lt.mpr (roundHalfEven_nonneg (by positivity))
  rw [if_neg hc]
  set m := (roundHalfEven (q * 100)).natAbs % 100 with hm
  have hm100 : m < 100 := Nat.mod_lt _ (by norm_num)
  by_cases h10 : m < 10
  · refine ⟨"" ++ toString ((roundHalfEven (q * 100)).natAbs / 100), "0" ++ toString m, ?_, ?_⟩
    · rw [if_pos h10]
      simp only [String.append_assoc]
    · rw [String.length_append, toString_nat_len1 h10]
      rfl
  · refine ⟨"" ++ toString ((roundHalfEven (q * 100)).natAbs / 100), "" ++ toString m, ?_, ?_⟩
    · rw [if_neg h10]
      simp [String.append_assoc]
    · rw [String.length_append, toString_nat_len2 (by omega) hm100]
      rfl

/-- C4: format_cost maps exactly zero to "$0", costs below 100 to a
two-decimal-place currency string, costs in the 100..999 band to a rounded
integer, and integer costs from 1000 up to the exact integer with a
thousands separator; in particular the four documented examples hold. -/
theorem c4_format_cost_bands :
    format_cost 0 = "$0" ∧
    format_cost 3.65 = "$3.65" ∧
    format_cost 150 = "$150" ∧
    format_cost 2944 = "$2,944" ∧
    (∀ q : ℚ, 0 < q → q < 100 → ∃ a b : String,
      format_cost q = ("$" ++ a) ++ "." ++ b ∧ b.length = 2) ∧
    (∀ q : ℚ, 100 ≤ q → q < 1000 → format_cost q = "$" ++ toString (roundHalfEven q)) ∧
    (∀ n : ℕ, 1000 ≤ n → format_cost (n : ℚ) = "$" ++ withCommas n) := by
  refine ⟨?_, ?_, ?_, ?_, ?_, ?_, ?_⟩
  · unfold format_cost
    rw [if_pos rfl]
  · rw [format_cost_lt100 (by norm_num) (by norm_num)]
    unfold fmt2
    rw [show ((3.65 : ℚ) * 100) = ((365 : ℤ) : ℚ) by norm_num, roundHalfEven_int]
    rfl
  · rw [format_cost_mid (by norm_num) (by norm_num),
      show ((150 : ℚ)) = ((150 : ℤ) : ℚ) by norm_num, roundHalfEven_int]
    rfl
  · rw [format_cost_big (by norm_num),
      show ((2944 : ℚ)) = ((2944 : ℤ) : ℚ) by norm_num, roundHalfEven_int]
    rfl
  · intro q h1 h2
    obtain ⟨a, b, hab, hb⟩ := fmt2_shape (le_of_lt h1)
    refine ⟨a, b, ?_, hb⟩
    rw [format_cost_lt100 (ne_of_gt h1) h2, hab]
    simp [String.append_assoc]
  · intro q h1 h2
    exact format_cost_mid h1 h2
  · intro n hn
    rw [format_cost_big (by exact_mod_cast hn),
      show ((n : ℕ) : ℚ) = (((n : ℕ) : ℤ) : ℚ) by push_cast; ring, roundHalfEven_int]
    norm_num

/-- C7 counterexample: the SQL elastic pool tier lookup is not
delimiter-insensitive — a dash inside a recognized tier name changes the
estimate — so the claimed strip-dash-and-underscore normalization does not
hold for `estimate_sql_elastic_pool_cost`. -/
theorem c7_sql_pool_not_delimiter_insensitive :
    estimate_sql_elastic_pool_cost 50 "Bas-ic" = 821.25 ∧
    estimate_sql_elastic_pool_cost 50 "Basic" = 273.75 ∧
    estimate_sql_elastic_pool_cost 50 "Bas-ic" ≠ estimate_sql_elastic_pool_cost 50 "Basic" := by
  have h1 : estimate_sql_elastic_pool_cost 50 "Bas-ic" = 821.25 := by
    unfold estimate_sql_elastic_pool_cost
    have h : List.lookup (pyLower "Bas-ic") sql_pool_tier_rates = none := rfl
    rw [h, Option.getD_none]
    rw [round2_eq (show ((50 : ℤ) : ℚ) * 0.0225 * 730 * 100 = ((82125 : ℤ) : ℚ) by norm_num)]
    norm_num
  have h2 : estimate_sql_elastic_pool_cost 50 "Basic" = 273.75 := by
    unfold estimate_sql_elastic_pool_cost
    have h : List.lookup (pyLower "Basic") sql_pool_tier_rates = some 0.0075 := rfl
    rw [h, Option.getD_some]
    rw [round2_eq (show ((50 : ℤ) : ℚ) * 0.0075 * 730 * 100 = ((27375 : ℤ) : ℚ) by norm_num)]
    norm_num
  refine ⟨h1, h2, ?_⟩
  rw [h1, h2]
  norm_num

/-- C7 (amended): every cost-estimation function is total; the VNet Gateway
and App Service Plan lookups are case- and delimiter-insensitive (keys are
lower-cased with dashes and underscores stripped) with silent defaults of
140.00 and 73.0; the SQL elastic pool lookup is case-insensitive only
(lower-cased, delimiters kept) with silent default rate 0.0225. -/
theorem c7_cost_fallback_normalization :
    (∀ s : String,
      estimate_vnet_gateway_cost (pyLower s) = estimate_vnet_gateway_cost s ∧
      estimate_vnet_gateway_cost (removeChar '-' s) = estimate_vnet_gateway_cost s ∧
      estimate_vnet_gateway_cost (removeChar '_' s) = estimate_vnet_gateway_cost s) ∧
    (∀ s : String, List.lookup (normSku s) vnet_gateway_sku_costs = none →
      estimate_vnet_gateway_cost s = 140.00) ∧
    (∀ tier s : String,
      estimate_app_service_plan_cost tier (pyLower s) = estimate_app_service_plan_cost tier s ∧
      estimate_app_service_plan_cost tier (removeChar '-' s) = estimate_app_service_plan_cost tier s ∧
      estimate_app_service_plan_cost tier (removeChar '_' s) = estimate_app_service_plan_cost tier s) ∧
    (∀ tier s : String, List.lookup (normSku s) app_service_plan_sku_costs = none →
      estimate_app_service_plan_cost tier s = 73.0) ∧
    (∀ (dtu : ℤ) (s : String),
      estimate_sql_elastic_pool_cost dtu (pyLower s) = estimate_sql_elastic_pool_cost dtu s) ∧
    (∀ (dtu : ℤ) (tier : String), List.lookup (pyLower tier) sql_pool_tier_rates = none →
      estimate_sql_elastic_pool_cost dtu tier = round2 ((dtu : ℚ) * 0.0225 * 730)) := by
  refine ⟨?_, ?_, ?_, ?_, ?_, ?_⟩
  · intro s
    unfold estimate_vnet_gateway_cost
    rw [normSku_pyLower, normSku_removeDash, normSku_removeUnderscore]
    exact ⟨rfl, rfl, rfl⟩
  · intro s h
    unfold estimate_vnet_gateway_cost
    rw [h]
    rfl
  · intro tier s
    unfold estimate_app_service_plan_cost
    rw [normSku_pyLower, normSku_removeDash, normSku_removeUnderscore]
    exact ⟨rfl, rfl, rfl⟩
  · intro tier s h
    unfold estimate_app_service_plan_cost
    rw [h]
    rfl
  · intro dtu s
    unfold estimate_sql_elastic_pool_cost
    rw [pyLower_pyLower]
  · intro dtu tier h
    unfold estimate_sql_elastic_pool_cost
    rw [h]
    rfl

/-! ## resource_info.py — the Risk/Guidance Catalog -/

/-- resource_info.py: the static risk/guidance record. -/
structure ResourceInfo where
  friendly_name : String
  risk_level : String
  description : String
  why_orphaned : String
  safe_to_delete : String
  check_before_delete : String
  deletion_impact : String
  recovery_info : String
  deriving DecidableEq

/-- resource_info.py: the RESOURCE_INFO table, keys already lower-case. -/
def RESOURCE_INFO : List (String × ResourceInfo) := [
  ("microsoft.network/networkinterfaces",
   { friendly_name := "Network Interface (NIC)"
     risk_level := "low"
     description := "A virtual network adapter that connects a VM to a network."
     why_orphaned := "Not attached to any VM. Usually left behind when a VM was deleted."
     safe_to_delete := "Yes - NICs don't contain data, just configuration."
     check_before_delete := "Verify no VM is being provisioned that needs this NIC."
     deletion_impact := "No impact - the NIC is not being used."
     recovery_info := "Cannot be recovered, but easily recreated if needed." }),
  ("microsoft.network/publicipaddresses",
   { friendly_name := "Public IP Address"
     risk_level := "low"
     description := "A public IP address that can be assigned to Azure resources."
     why_orphaned := "Not attached to any resource (NIC, Load Balancer, etc.)."
     safe_to_delete := "Yes - Just an IP address, easily recreated."
     check_before_delete := "If static IP, verify the IP address isn't documented elsewhere (DNS, firewall rules)."
     deletion_impact := "You will lose this specific IP address. Dynamic IPs get a new address on recreation."
     recovery_info := "Cannot recover the same IP - you'll get a new one." }),
  ("microsoft.network/networksecuritygroups",
   { friendly_name := "Network Security Group (NSG)"
     risk_level := "low"
     description := "A firewall that filters network traffic to/from Azure resources."
     why_orphaned := "Not attached to any subnet or network interface."
     safe_to_delete := "Yes - Not protecting anything currently."
     check_before_delete := "Review the rules - you may want to save them for reference."
     deletion_impact := "No impact - the NSG is not filtering any traffic."
     recovery_info := "Cannot be recovered, but rules can be recreated." }),
  ("microsoft.network/routetables",
   { friendly_name := "Route Table"
     risk_level := "low"
     description := "Custom routing rules for network traffic in a virtual network."
     why_orphaned := "Not attached to any subnet."
     safe_to_delete := "Yes - Not routing any traffic currently."
     check_before_delete := "Review the routes - you may want to document them."
     deletion_impact := "No impact - the route table is not in use."
     recovery_info := "Cannot be recovered, but routes can be recreated." }),
  ("microsoft.compute/availabilitysets",
   { friendly_name := "Availability Set"
     risk_level := "low"
     description := "A logical grouping of VMs for high availability (fault/update domains)."
     why_orphaned := "No VMs are assigned to this availability set."
     safe_to_delete := "Yes - Just metadata, no resources inside."
     check_before_delete := "Verify no VMs are being provisioned that need this set."
     deletion_impact := "No impact - just removes empty container."
     recovery_info := "Cannot be recovered, but easily recreated." }),
  ("microsoft.network/ipgroups",
   { friendly_name := "IP Group"
     risk_level := "low"
     description := "A container for IP addresses used in Azure Firewall rules."
     why_orphaned := "Not associated with any Azure Firewall or policy."
     safe_to_delete := "Yes - Just a list of IPs, not used anywhere."
     check_before_delete := "Verify no firewall rules are being created that need this group."
     deletion_impact := "No impact - the IP list is not referenced."
     recovery_info := "Cannot be recovered, but IP list can be recreated." }),
  ("microsoft.resources/subscriptions/resourcegroups",
   { friendly_name := "Resource Group"
     risk_level := "low"
     description := "A container that holds related Azure resources."
     why_orphaned := "Contains no resources."
     safe_to_delete := "Yes - Empty container with no resources."
     check_before_delete := "Double-check it's truly empty and not reserved for future use."
     deletion_impact := "No impact - just removes empty container."
     recovery_info := "Cannot be recovered, but easily recreated." }),
  ("microsoft.network/trafficmanagerprofiles",
   { friendly_name := "Traffic Manager Profile"
     risk_level := "low"
     description := "DNS-based traffic load balancer for distributing traffic globally."
     why_orphaned := "Has no endpoints configured."
     safe_to_delete := "Yes - Not routing any traffic."
     check_before_delete := "Verify no DNS records point to this profile."
     deletion_impact := "No impact - no endpoints to receive traffic."
     recovery_info := "Cannot be recovered, but easily recreated." }),
  ("microsoft.network/frontdoorwebapplicationfirewallpolicies",
   { friendly_name := "Front Door WAF Policy"
     risk_level := "low"
     description := "Web Application Firewall policy for Azure Front Door."
     why_orphaned := "Not linked to any Front Door endpoints."
     safe_to_delete := "Yes - Not protecting any endpoints."
     check_before_delete := "Document custom rules if you want to reuse them later."
     deletion_impact := "No impact - policy is not applied anywhere."
     recovery_info := "Cannot be recovered, but rules can be recreated." }),
  ("microsoft.web/connections",
   { friendly_name := "API Connection"
     risk_level := "low"
     description := "A connector used by Logic Apps to connect to external services."
     why_orphaned := "In Error or Disconnected state - connection is broken."
     safe_to_delete := "Yes - Already broken, needs to be fixed or replaced."
     check_before_delete := "Check if any Logic Apps reference this connection."
     deletion_impact := "Logic Apps using this connection may fail (they may already be failing)."
     recovery_info := "Create a new connection with the same settings." }),
  ("microsoft.web/certificates",
   { friendly_name := "App Service Certificate"
     risk_level := "low"
     description := "SSL/TLS certificate for securing App Service applications."
     why_orphaned := "Certificate has expired."
     safe_to_delete := "Yes - Expired certificates provide no security value."
     check_before_delete := "Ensure a new certificate has been provisioned."
     deletion_impact := "No impact if already replaced. Apps using expired cert are already insecure."
     recovery_info := "Purchase or provision a new certificate." }),
  ("microsoft.network/loadbalancers",
   { friendly_name := "Load Balancer"
     risk_level := "low"
     description := "Distributes network traffic across multiple backend resources."
     why_orphaned := "Backend pool is empty - no resources to load balance."
     safe_to_delete := "Yes - Not routing traffic to any backends."
     check_before_delete := "Verify no resources are being added to this load balancer."
     deletion_impact := "No impact - no backends receiving traffic."
     recovery_info := "Cannot be recovered, but easily recreated." }),
  ("microsoft.web/serverfarms",
   { friendly_name := "App Service Plan"
     risk_level := "low"
     description := "The compute resources (VMs) that host App Service applications."
     why_orphaned := "No apps are hosted on this plan."
     safe_to_delete := "Yes - Empty plan just costs money with no benefit."
     check_before_delete := "Verify no apps are being deployed to this plan."
     deletion_impact := "No impact - no apps hosted."
     recovery_info := "Cannot be recovered, but easily recreated." }),
  ("microsoft.sql/servers/elasticpools",
   { friendly_name := "SQL Elastic Pool"
     risk_level := "low"
     description := "Shared compute resources for multiple Azure SQL databases."
     why_orphaned := "No databases are in this pool."
     safe_to_delete := "Yes - Empty pool just costs money with no benefit."
     check_before_delete := "Verify no databases are being added to this pool."
     deletion_impact := "No impact - no databases in pool."
     recovery_info := "Cannot be recovered, but easily recreated." }),
  ("microsoft.compute/disks",
   { friendly_name := "Managed Disk"
     risk_level := "medium"
     description := "A virtual hard drive that stores VM data (OS or data disk)."
     why_orphaned := "Not attached to any VM. The original VM may have been deleted."
     safe_to_delete := "CAUTION - This disk may contain important data!"
     check_before_delete := "1. Check disk name for hints about original VM\n2. Consider mounting to a VM to check contents\n3. Take a snapshot before deleting if unsure\n4. Verify data is backed up elsewhere"
     deletion_impact := "ALL DATA ON THE DISK WILL BE PERMANENTLY LOST."
     recovery_info := "CANNOT be recovered after deletion. Create snapshot first if unsure." }),
  ("microsoft.compute/virtualmachines",
   { friendly_name := "Virtual Machine"
     risk_level := "medium"
     description := "A stopped/deallocated VM that is not currently running."
     why_orphaned := "VM is deallocated (stopped). May be intentionally stopped."
     safe_to_delete := "CAUTION - Verify this VM is not needed before deleting."
     check_before_delete := "1. Check with team/owner if VM is still needed\n2. Verify any data on the VM is backed up\n3. Check if VM is stopped temporarily (maintenance window)"
     deletion_impact := "VM and its OS disk will be deleted. Data disks may remain orphaned."
     recovery_info := "Cannot be recovered. Disks may be retained depending on settings." }),
  ("microsoft.network/privatednszones",
   { friendly_name := "Private DNS Zone"
     risk_level := "medium"
     description := "A private DNS zone for name resolution within virtual networks."
     why_orphaned := "Not linked to any virtual networks."
     safe_to_delete := "CAUTION - DNS records may still be needed by applications."
     check_before_delete := "1. Check if any apps reference these DNS names\n2. Verify records are documented elsewhere\n3. Check if VNet link is being configured"
     deletion_impact := "All DNS records in this zone will be deleted."
     recovery_info := "Cannot be recovered. Records must be recreated manually." }),
  ("microsoft.network/privateendpoints",
   { friendly_name := "Private Endpoint"
     risk_level := "medium"
     description := "A network interface connecting to an Azure service privately."
     why_orphaned := "Connection is in Disconnected or Rejected state."
     safe_to_delete := "CAUTION - The target service may still need private connectivity."
     check_before_delete := "1. Verify the target service doesn't need this endpoint\n2. Check if connection needs to be re-approved\n3. Confirm private DNS records can be cleaned up"
     deletion_impact := "Private connectivity to the service will be lost."
     recovery_info := "Must create a new private endpoint and get approval." }),
  ("microsoft.network/applicationgateways",
   { friendly_name := "Application Gateway"
     risk_level := "medium"
     description := "A Layer 7 load balancer for web traffic with WAF capabilities."
     why_orphaned := "Backend pools are empty - no servers to route to."
     safe_to_delete := "CAUTION - May be in setup phase or temporarily empty."
     check_before_delete := "1. Check if backends are being configured\n2. Verify SSL certificates aren't needed elsewhere\n3. Document custom WAF rules if configured"
     deletion_impact := "All configuration, rules, and SSL certificates will be lost."
     recovery_info := "Cannot be recovered. Complex to recreate - document config first." }),
  ("microsoft.network/natgateways",
   { friendly_name := "NAT Gateway"
     risk_level := "medium"
     description := "Provides outbound internet connectivity for resources in a subnet."
     why_orphaned := "Not attached to any subnets."
     safe_to_delete := "CAUTION - Verify subnet outbound connectivity is handled another way."
     check_before_delete := "1. Check if subnet is being configured to use this NAT GW\n2. Verify resources have alternative outbound connectivity\n3. Confirm public IPs can be released"
     deletion_impact := "Associated public IPs may become orphaned."
     recovery_info := "Cannot be recovered, but can recreate with same config." }),
  ("microsoft.network/ddosprotectionplans",
   { friendly_name := "DDoS Protection Plan"
     risk_level := "medium"
     description := "Protection against DDoS attacks for virtual networks."
     why_orphaned := "No virtual networks are protected by this plan."
     safe_to_delete := "Yes - VERY expensive ($2,944/mo) with no VNets protected."
     check_before_delete := "1. Verify no VNets are being added to this plan\n2. Confirm DDoS protection strategy with security team"
     deletion_impact := "No impact if no VNets are linked."
     recovery_info := "Can recreate, but takes time to provision." }),
  ("microsoft.network/virtualnetworkgateways",
   { friendly_name := "VNet Gateway"
     risk_level := "high"
     description := "Gateway for VPN or ExpressRoute connectivity to on-premises."
     why_orphaned := "No connections and no VPN clients configured."
     safe_to_delete := "HIGH RISK - Verify no VPN/ExpressRoute connectivity is needed."
     check_before_delete := "1. Check with network team about connectivity requirements\n2. Verify no on-premises connections exist\n3. Confirm no point-to-site VPN users need access\n4. Check for any BGP peering configurations"
     deletion_impact := "ALL VPN/ExpressRoute connectivity will be lost. Very expensive to recreate."
     recovery_info := "Provisioning takes 30-45 minutes. All connections must be reconfigured." })]

/-- resource_info.py `get_resource_info`: case-insensitive lookup with a
default record for unknown types. -/
def get_resource_info (resource_type : String) : ResourceInfo :=
  match RESOURCE_INFO.lookup (pyLower resource_type) with
  | some info => info
  | none =>
    { friendly_name := pyTitle (lastSegment resource_type)
      risk_level := "medium"
      description := "Azure resource."
      why_orphaned := "Detected as potentially unused."
      safe_to_delete := "Verify before deleting."
      check_before_delete := "Review resource details and check with team."
      deletion_impact := "Unknown - verify with Azure documentation."
      recovery_info := "Varies by resource type." }

/-- resource_info.py `get_risk_level`. -/
def get_risk_level (resource_type : String) : String :=
  (get_resource_info resource_type).risk_level


/-- A successful association-list lookup returns a stored value. -/
theorem lookup_mem {α β : Type} [BEq α] [LawfulBEq α] {l : List (α × β)} {k : α} {v : β}
    (h : List.lookup k l = some v) : ∃ a, (a, v) ∈ l := by
  induction l with
  | nil => simp [List.lookup] at h
  | cons p t ih =>
    obtain ⟨a, b⟩ := p
    rw [List.lookup] at h
    split at h
    · exact ⟨a, by simp_all⟩
    · obtain ⟨c, hc⟩ := ih h
      exact ⟨c, List.mem_cons_of_mem _ hc⟩

/-- Every record stored in the catalog carries one of the three risk levels. -/
theorem resource_info_risk_levels :
    ∀ p ∈ RESOURCE_INFO, p.2.risk_level = "low" ∨ p.2.risk_level = "medium" ∨
      p.2.risk_level = "high" := by
  decide

/-- C5: catalog lookup is case-insensitive (equal lower-casings receive the
same record), risk_level is always one of low/medium/high, and any type
absent from the catalog receives the default record with risk medium, the
generic description, and the title-cased last path segment as name. -/
theorem c5_resource_info_lookup :
    (∀ s t : String, pyLower s = pyLower t → get_resource_info s = get_resource_info t) ∧
    (∀ t : String, (get_resource_info t).risk_level = "low" ∨
      (get_resource_info t).risk_level = "medium" ∨
      (get_resource_info t).risk_level = "high") ∧
    (∀ t : String, List.lookup (pyLower t) RESOURCE_INFO = none →
      get_resource_info t =
        { friendly_name := pyTitle (lastSegment t)
          risk_level := "medium"
          description := "Azure resource."
          why_orphaned := "Detected as potentially unused."
          safe_to_delete := "Verify before deleting."
          check_before_delete := "Review resource details and check with team."
          deletion_impact := "Unknown - verify with Azure documentation."
          recovery_info := "Varies by resource type." }) ∧
    (∀ t : String, get_risk_level t = (get_resource_info t).risk_level) := by
  refine ⟨?_, ?_, ?_, fun _ => rfl⟩
  · intro s t h
    unfold get_resource_info
    rw [h]
    cases hl : List.lookup (pyLower t) RESOURCE_INFO with
    | some info => rfl
    | none =>
      simp only [ResourceInfo.mk.injEq]
      simp [pyTitle_lastSegment_congr h]
  · intro t
    unfold get_resource_info
    cases hl : List.lookup (pyLower t) RESOURCE_INFO with
    | some info =>
      obtain ⟨a, ha⟩ := lookup_mem hl
      exact resource_info_risk_levels (a, info) ha
    | none => right; left; rfl
  · intro t h
    unfold get_resource_info
    rw [h]

/-! ## Raw rows

A Resource Graph row is a loosely-typed mapping; a projected field can be
absent from the mapping, explicitly null, or carry a value. Identity
fields (name, resourceGroup, location, id, subscriptionId) are modelled as
`Option String` (`none` = key absent, defaulted through `.get(key, d)`);
an explicitly null identity value is outside the model (several detectors
would raise on it, see the per-claim notes). Tag values are modelled as
strings, which is how the detectors render them. -/

/-- One optional field of a raw row: absent, null, or a value. -/
inductive Fld (α : Type) where
  | miss : Fld α
  | null : Fld α
  | val : α → Fld α
  deriving DecidableEq

/-- Python `item.get(key, d)`: the default only replaces an absent key;
an explicit null comes through as `none` (Python None). -/
def Fld.get {α : Type} : Fld α → α → Option α
  | .miss, d => some d
  | .null, _ => none
  | .val a, _ => some a

/-- Python `item.get(key)` (no default). -/
def Fld.getN {α : Type} : Fld α → Option α
  | .miss => none
  | .null => none
  | .val a => some a

/-- Python `x or d` for strings: None and the empty string are falsy. -/
def pyOrS (x : Option String) (d : String) : String :=
  match x with
  | none => d
  | some s => if s = "" then d else s

/-- Python `x or d` for integers: None and 0 are falsy. -/
def pyOrZ (x : Option ℤ) (d : ℤ) : ℤ :=
  match x with
  | none => d
  | some n => if n = 0 then d else n

/-- Python `x or []` (also `x or` an empty mapping): a None or empty
collection becomes the empty one. -/
def pyOrL {α : Type} (x : Option (List α)) : List α :=
  match x with
  | none => []
  | some l => l

/-- Python truthiness of an optional string. -/
def sTruthy (x : Option String) : Bool :=
  match x with
  | none => false
  | some s => s ≠ ""

/-- Python truthiness of an optional boolean. -/
def bTruthy (x : Option Bool) : Bool :=
  match x with
  | none => false
  | some b => b

/-- The normalized resource record every detector emits (the flat dict of
the source, with its fixed keys). -/
structure ResourceRecord where
  name : String
  type : String
  type_display : String
  resource_group : String
  location : String
  id : String
  subscription_id : String
  cost : ℚ
  cost_display : String
  details : String
  risk_level : String
  deriving DecidableEq

/-- disk.py/vm.py `_format_age`: band a day count into an age phrase.
`ageDays s` abstracts `(datetime.now(tz) - fromisoformat(s)).days`, with
`none` for a parse failure (the except branch). -/
def format_age (ageDays : String → Option ℤ) : Option String → String
  | none => ""
  | some s =>
    if s = "" then ""
    else
      match ageDays s with
      | none => ""
      | some days =>
        if days < 1 then "today"
        else if days = 1 then "1 day ago"
        else if days < 30 then toString days ++ " days ago"
        else if days < 365 then
          toString (days / 30) ++ " month" ++ (if days / 30 > 1 then "s" else "") ++ " ago"
        else toString (days / 365) ++ " year" ++ (if days / 365 > 1 then "s" else "") ++ " ago"

/-- Consume a (lower-case) literal from the front of a list,
case-insensitively; return the remainder on success. -/
def consumeCI : List Char → List Char → Option (List Char)
  | [], s => some s
  | _ :: _, [] => none
  | a :: as, b :: bs => if lowerChar b = a then consumeCI as bs else none

/-- After at least one digit was read: more digits then an underscore. -/
def digitsUnd : List Char → Bool
  | [] => false
  | c :: rest => if c = '_' then true else digitCh c && digitsUnd rest

/-- One or more digits followed by an underscore. -/
def tailDigits : List Char → Bool
  | [] => false
  | c :: rest => digitCh c && digitsUnd rest

/-- The tail of `(.+?)_(Os|Data)Disk_[0-9]+_` after the group. -/
def matchTail1 (s : List Char) : Bool :=
  (match consumeCI "_osdisk_".data s with
   | some r => tailDigits r
   | none => false) ||
  (match consumeCI "_datadisk_".data s with
   | some r => tailDigits r
   | none => false)

/-- The tail of `(.+?)-(os|data)disk` after the group. -/
def matchTail2 (s : List Char) : Bool :=
  (consumeCI "-osdisk".data s).isSome || (consumeCI "-datadisk".data s).isSome

/-- Find the shortest nonempty leading group whose remainder satisfies the
tail matcher (the lazy `(.+?)` group of an anchored match). -/
def findSplit (tl : List Char → Bool) : List Char → List Char → Option (List Char)
  | _, [] => none
  | pre, c :: rest => if tl rest then some (pre ++ [c]) else findSplit tl (pre ++ [c]) rest

/-- disk.py `_extract_vm_name`: VM name from a disk name via the two
anchored patterns. -/
def extract_vm_name (disk_name : String) : Option String :=
  match findSplit matchTail1 [] disk_name.data with
  | some g => some (String.mk g)
  | none =>
    match findSplit matchTail2 [] disk_name.data with
    | some g => some (String.mk g)
    | none => none

/-- Length of the maximal digit suffix. -/
def trailDigits (s : List Char) : ℕ := (s.reverse.takeWhile digitCh).length

/-- The lazy group of `^(.+?)([0-9]+)$`: everything before the digit
suffix, but at least one character. -/
def nicRegexG1 (s : List Char) : Option (List Char) :=
  if trailDigits s = 0 ∨ s.length < 2 then none
  else some (s.take (max (s.length - trailDigits s) 1))

/-- nic.py `_extract_vm_name_from_nic`: strip a known NIC suffix, else
take the part before a digit suffix when long enough. -/
def extract_vm_name_from_nic (nic_name : String) : Option String :=
  if endsWithL "-nic".data (pyLower nic_name).data then
    some (String.mk (nic_name.data.take (nic_name.data.length - 4)))
  else if endsWithL "vmnic".data (pyLower nic_name).data then
    some (String.mk (nic_name.data.take (nic_name.data.length - 5)))
  else if endsWithL "_nic".data (pyLower nic_name).data then
    some (String.mk (nic_name.data.take (nic_name.data.length - 4)))
  else if endsWithL "nic".data (pyLower nic_name).data then
    some (String.mk (nic_name.data.take (nic_name.data.length - 3)))
  else
    match nicRegexG1 nic_name.data with
    | some g1 => if g1.length > 3 then some (String.mk g1) else none
    | none => none

/-! ## Detectors (Priority 1: high cost) -/

/-- Row of the DDoS plan query. -/
structure DdosRow where
  name : Option String
  resourceGroup : Option String
  location : Option String
  id : Option String
  subscriptionId : Option String
  provisioningState : Fld String

/-- ddos_plan.py: one record per row. -/
def ddos_plan_row (item : DdosRow) : ResourceRecord :=
  { name := item.name.getD ""
    type := "microsoft.network/ddosprotectionplans"
    type_display := "DDoS Plan"
    resource_group := item.resourceGroup.getD ""
    location := item.location.getD ""
    id := item.id.getD ""
    subscription_id := item.subscriptionId.getD ""
    cost := estimate_ddos_plan_cost
    cost_display := format_cost estimate_ddos_plan_cost
    details := joinPipe (["No protected VNets", "HIGH COST"] ++
      (if sTruthy (item.provisioningState.get "") then
        ["State: " ++ pyShow (item.provisioningState.get "")] else []))
    risk_level := get_risk_level "microsoft.network/ddosprotectionplans" }

/-- ddos_plan.py `detect_orphaned_ddos_plans` (the query execution is
abstracted to the rows it returned). -/
def detect_orphaned_ddos_plans (results : List DdosRow) : List ResourceRecord :=
  results.map ddos_plan_row

/-- Row of the Application Gateway query. -/
structure AppGwRow where
  name : Option String
  resourceGroup : Option String
  location : Option String
  id : Option String
  subscriptionId : Option String
  tier : Fld String
  capacity : Fld ℤ

/-- app_gateway.py: one record per row. -/
def app_gateway_row (item : AppGwRow) : ResourceRecord :=
  { name := item.name.getD ""
    type := "microsoft.network/applicationgateways"
    type_display := "App Gateway"
    resource_group := item.resourceGroup.getD ""
    location := item.location.getD ""
    id := item.id.getD ""
    subscription_id := item.subscriptionId.getD ""
    cost := estimate_app_gateway_cost (pyOrS (item.tier.get "Standard_v2") "Standard_v2")
      (pyOrZ (item.capacity.get 2) 2)
    cost_display := format_cost (estimate_app_gateway_cost
      (pyOrS (item.tier.get "Standard_v2") "Standard_v2") (pyOrZ (item.capacity.get 2) 2))
    details := joinPipe ["Tier: " ++ pyOrS (item.tier.get "Standard_v2") "Standard_v2",
      "Capacity: " ++ toString (pyOrZ (item.capacity.get 2) 2), "Empty backend pools"]
    risk_level := get_risk_level "microsoft.network/applicationgateways" }

/-- app_gateway.py `detect_orphaned_app_gateways`. -/
def detect_orphaned_app_gateways (results : List AppGwRow) : List ResourceRecord :=
  results.map app_gateway_row

/-- Row of the VNet Gateway query. -/
structure VnetGwRow where
  name : Option String
  resourceGroup : Option String
  location : Option String
  id : Option String
  subscriptionId : Option String
  sku : Fld String
  gatewayType : Fld String

/-- vnet_gateway.py: one record per row. -/
def vnet_gateway_row (item : VnetGwRow) : ResourceRecord :=
  { name := item.name.getD ""
    type := "microsoft.network/virtualnetworkgateways"
    type_display := "VNet Gateway"
    resource_group := item.resourceGroup.getD ""
    location := item.location.getD ""
    id := item.id.getD ""
    subscription_id := item.subscriptionId.getD ""
    cost := estimate_vnet_gateway_cost (pyOrS (item.sku.get "VpnGw1") "VpnGw1")
    cost_display := format_cost (estimate_vnet_gateway_cost (pyOrS (item.sku.get "VpnGw1") "VpnGw1"))
    details := joinPipe ["Type: " ++ pyOrS (item.gatewayType.get "Vpn") "Vpn",
      "SKU: " ++ pyOrS (item.sku.get "VpnGw1") "VpnGw1", "No connections"]
    risk_level := get_risk_level "microsoft.network/virtualnetworkgateways" }

/-- vnet_gateway.py `detect_orphaned_vnet_gateways`. -/
def detect_orphaned_vnet_gateways (results : List VnetGwRow) : List ResourceRecord :=
  results.map vnet_gateway_row

/-- Row of the SQL Elastic Pool query. -/
structure SqlPoolRow where
  name : Option String
  resourceGroup : Option String
  location : Option String
  id : Option String
  subscriptionId : Option String
  sku : Fld String
  tier : Fld String
  dtu : Fld ℤ

/-- sql_elastic_pool.py: one record per row. -/
def sql_elastic_pool_row (item : SqlPoolRow) : ResourceRecord :=
  { name := item.name.getD ""
    type := "microsoft.sql/servers/elasticpools"
    type_display := "SQL Elastic Pool"
    resource_group := item.resourceGroup.getD ""
    location := item.location.getD ""
    id := item.id.getD ""
    subscription_id := item.subscriptionId.getD ""
    cost := estimate_sql_elastic_pool_cost (pyOrZ (item.dtu.get 50) 50)
      (pyOrS (item.tier.get "Standard") "Standard")
    cost_display := format_cost (estimate_sql_elastic_pool_cost (pyOrZ (item.dtu.get 50) 50)
      (pyOrS (item.tier.get "Standard") "Standard"))
    details := joinPipe ["SKU: " ++ pyOrS (item.sku.get "StandardPool") "StandardPool",
      "Tier: " ++ pyOrS (item.tier.get "Standard") "Standard",
      toString (pyOrZ (item.dtu.get 50) 50) ++ " eDTU", "No databases"]
    risk_level := get_risk_level "microsoft.sql/servers/elasticpools" }

/-- sql_elastic_pool.py `detect_orphaned_sql_elastic_pools`. -/
def detect_orphaned_sql_elastic_pools (results : List SqlPoolRow) : List ResourceRecord :=
  results.map sql_elastic_pool_row

/-- Row of the App Service Plan query. -/
structure AspRow where
  name : Option String
  resourceGroup : Option String
  location : Option String
  id : Option String
  subscriptionId : Option String
  sku : Fld String
  tier : Fld String
  size : Fld String
  capacity : Fld ℤ
  kind : Fld String

/-- app_service_plan.py: the per-row cost (per-SKU estimate times the
instance count). -/
def asp_cost (item : AspRow) : ℚ :=
  estimate_app_service_plan_cost (pyOrS (item.tier.get "Basic") "Basic")
      (pyOrS (item.size.get "B1") "B1") *
    ((pyOrZ (item.capacity.get 1) 1 : ℤ) : ℚ)

/-- app_service_plan.py: the per-row details fragments. -/
def asp_details (item : AspRow) : List String :=
  (if pyIn "linux" (pyLower (pyOrS (item.kind.get "") "")) then ["Linux"]
   else if pyIn "windows" (pyLower (pyOrS (item.kind.get "") "")) then ["Windows"]
   else if pyIn "functionapp" (pyLower (pyOrS (item.kind.get "") "")) then ["Functions"]
   else []) ++
  ["SKU: " ++ pyOrS (item.sku.get "B1") "B1"] ++
  (if pyOrZ (item.capacity.get 1) 1 > 1 then
    [toString (pyOrZ (item.capacity.get 1) 1) ++ " instances"] else []) ++
  ["No apps"]

/-- app_service_plan.py: one record per row. -/
def app_service_plan_row (item : AspRow) : ResourceRecord :=
  { name := item.name.getD ""
    type := "microsoft.web/serverfarms"
    type_display := "App Service Plan"
    resource_group := item.resourceGroup.getD ""
    location := item.location.getD ""
    id := item.id.getD ""
    subscription_id := item.subscriptionId.getD ""
    cost := asp_cost item
    cost_display := format_cost (asp_cost item)
    details := joinPipe (asp_details item)
    risk_level := get_risk_level "microsoft.web/serverfarms" }

/-- app_service_plan.py `detect_orphaned_app_service_plans`. -/
def detect_orphaned_app_service_plans (results : List AspRow) : List ResourceRecord :=
  results.map app_service_plan_row

/-- Row of the NAT Gateway query (only the lengths of the IP lists are
observed). -/
structure NatGwRow where
  name : Option String
  resourceGroup : Option String
  location : Option String
  id : Option String
  subscriptionId : Option String
  publicIpAddresses : Fld (List Unit)
  publicIpPrefixes : Fld (List Unit)
  idleTimeoutMinutes : Fld ℤ

/-- nat_gateway.py: one record per row. -/
def nat_gateway_row (item : NatGwRow) : ResourceRecord :=
  { name := item.name.getD ""
    type := "microsoft.network/natgateways"
    type_display := "NAT Gateway"
    resource_group := item.resourceGroup.getD ""
    location := item.location.getD ""
    id := item.id.getD ""
    subscription_id := item.subscriptionId.getD ""
    cost := estimate_nat_gateway_cost 0
    cost_display := format_cost (estimate_nat_gateway_cost 0)
    details := joinPipe
      ((if (pyOrL item.publicIpAddresses.getN).length > 0 then
          [toString (pyOrL item.publicIpAddresses.getN).length ++ " Public IP(s)"] else []) ++
       (if (pyOrL item.publicIpPrefixes.getN).length > 0 then
          [toString (pyOrL item.publicIpPrefixes.getN).length ++ " IP Prefix(es)"] else []) ++
       ["Idle: " ++ toString (pyOrZ (item.idleTimeoutMinutes.get 4) 4) ++ "min",
        "Not attached to subnet"])
    risk_level := get_risk_level "microsoft.network/natgateways" }

/-- nat_gateway.py `detect_orphaned_nat_gateways`. -/
def detect_orphaned_nat_gateways (results : List NatGwRow) : List ResourceRecord :=
  results.map nat_gateway_row

/-- Row of the Load Balancer query. -/
structure LbRow where
  name : Option String
  resourceGroup : Option String
  location : Option String
  id : Option String
  subscriptionId : Option String
  sku : Fld String
  frontendIPCount : Fld ℤ
  rulesCount : Fld ℤ

/-- load_balancer.py: one record per row. -/
def load_balancer_row (item : LbRow) : ResourceRecord :=
  { name := item.name.getD ""
    type := "microsoft.network/loadbalancers"
    type_display := "Load Balancer"
    resource_group := item.resourceGroup.getD ""
    location := item.location.getD ""
    id := item.id.getD ""
    subscription_id := item.subscriptionId.getD ""
    cost := estimate_load_balancer_cost (pyOrS (item.sku.get "Standard") "Standard")
      (pyOrZ (item.rulesCount.get 0) 0)
    cost_display := format_cost (estimate_load_balancer_cost
      (pyOrS (item.sku.get "Standard") "Standard") (pyOrZ (item.rulesCount.get 0) 0))
    details := joinPipe
      (["SKU: " ++ pyOrS (item.sku.get "Standard") "Standard"] ++
       (if pyOrZ (item.frontendIPCount.get 0) 0 > 0 then
          [toString (pyOrZ (item.frontendIPCount.get 0) 0) ++ " Frontend IP(s)"] else []) ++
       (if pyOrZ (item.rulesCount.get 0) 0 > 0 then
          [toString (pyOrZ (item.rulesCount.get 0) 0) ++ " rule(s)"] else []) ++
       ["Empty backend"])
    risk_level := get_risk_level "microsoft.network/loadbalancers" }

/-- load_balancer.py `detect_orphaned_load_balancers`. -/
def detect_orphaned_load_balancers (results : List LbRow) : List ResourceRecord :=
  results.map load_balancer_row

/-! ## Detectors (Priority 2: medium cost) -/

/-- Row of the unattached-disk query. -/
structure DiskRow where
  name : Option String
  resourceGroup : Option String
  location : Option String
  id : Option String
  subscriptionId : Option String
  diskSizeGB : Fld ℤ
  sku : Fld String
  timeCreated : Fld String
  tags : Fld (List (String × String))

/-- disk.py: the per-row details fragments. -/
def disk_details (ageDays : String → Option ℤ) (item : DiskRow) : List String :=
  (match extract_vm_name (item.name.getD "") with
   | some vm => ["VM: " ++ vm]
   | none => []) ++
  [toString (pyOrZ (item.diskSizeGB.get 0) 0) ++ " GB"] ++
  (if format_age ageDays item.timeCreated.getN ≠ "" then
    ["Created " ++ format_age ageDays item.timeCreated.getN] else []) ++
  (if pyOrL item.tags.getN ≠ [] then
    (if ((pyOrL item.tags.getN).lookup "purpose").isSome then
      ["Purpose: " ++ ((pyOrL item.tags.getN).lookup "purpose").getD ""]
    else if ((pyOrL item.tags.getN).lookup "application").isSome then
      ["App: " ++ ((pyOrL item.tags.getN).lookup "application").getD ""]
    else if ((pyOrL item.tags.getN).lookup "environment").isSome then
      ["Env: " ++ ((pyOrL item.tags.getN).lookup "environment").getD ""]
    else [])
   else [])

/-- disk.py: one record per row. -/
def disk_row (ageDays : String → Option ℤ) (item : DiskRow) : ResourceRecord :=
  { name := item.name.getD ""
    type := "microsoft.compute/disks"
    type_display := "Managed Disk"
    resource_group := item.resourceGroup.getD ""
    location := item.location.getD ""
    id := item.id.getD ""
    subscription_id := item.subscriptionId.getD ""
    cost := estimate_disk_cost (pyOrZ (item.diskSizeGB.get 0) 0)
      (pyOrS (item.sku.get "Standard_LRS") "Standard_LRS")
    cost_display := format_cost (estimate_disk_cost (pyOrZ (item.diskSizeGB.get 0) 0)
      (pyOrS (item.sku.get "Standard_LRS") "Standard_LRS"))
    details := joinPipe (disk_details ageDays item)
    risk_level := get_risk_level "microsoft.compute/disks" }

/-- disk.py `detect_unattached_disks`. -/
def detect_unattached_disks (ageDays : String → Option ℤ) (results : List DiskRow) :
    List ResourceRecord :=
  results.map (disk_row ageDays)

/-- Row of the unused public IP query. -/
structure PubIpRow where
  name : Option String
  resourceGroup : Option String
  location : Option String
  id : Option String
  subscriptionId : Option String
  sku : Fld String
  ipAddress : Fld String
  allocationMethod : Fld String
  tags : Fld (List (String × String))

/-- public_ip.py: the per-row details fragments (base list, then the
name-derived insert at the front, then the tag-derived insert at the
front). -/
def public_ip_details (item : PubIpRow) : List String :=
  ((fun parts =>
    (if (pyOrL item.tags.getN) ≠ [] then
      (if ((pyOrL item.tags.getN).lookup "purpose").isSome then
        ("Purpose: " ++ ((pyOrL item.tags.getN).lookup "purpose").getD "") :: parts
      else if ((pyOrL item.tags.getN).lookup "service").isSome then
        ("Service: " ++ ((pyOrL item.tags.getN).lookup "service").getD "") :: parts
      else parts)
     else parts)) ∘
   (fun parts =>
    if pyIn "aads" (pyLower (item.name.getD "")) || pyIn "adds" (pyLower (item.name.getD "")) then
      "Azure AD DS" :: parts
    else if pyIn "vnet" (pyLower (item.name.getD "")) then "VNet related" :: parts
    else if pyIn "lb" (pyLower (item.name.getD "")) ||
        pyIn "loadbalancer" (pyLower (item.name.getD "")) then "Load Balancer" :: parts
    else if pyIn "gw" (pyLower (item.name.getD "")) ||
        pyIn "gateway" (pyLower (item.name.getD "")) then "Gateway" :: parts
    else parts))
  ((if sTruthy (item.ipAddress.get "") then ["IP: " ++ pyShow (item.ipAddress.get "")] else []) ++
   ["SKU: " ++ pyOrS (item.sku.get "Basic") "Basic"] ++
   (if sTruthy (item.allocationMethod.get "") then [pyShow (item.allocationMethod.get "")] else []))

/-- public_ip.py: one record per row. -/
def public_ip_row (item : PubIpRow) : ResourceRecord :=
  { name := item.name.getD ""
    type := "microsoft.network/publicipaddresses"
    type_display := "Public IP"
    resource_group := item.resourceGroup.getD ""
    location := item.location.getD ""
    id := item.id.getD ""
    subscription_id := item.subscriptionId.getD ""
    cost := estimate_public_ip_cost (pyOrS (item.sku.get "Basic") "Basic")
    cost_display := format_cost (estimate_public_ip_cost (pyOrS (item.sku.get "Basic") "Basic"))
    details := joinPipe (public_ip_details item)
    risk_level := get_risk_level "microsoft.network/publicipaddresses" }

/-- public_ip.py `detect_unused_public_ips`. -/
def detect_unused_public_ips (results : List PubIpRow) : List ResourceRecord :=
  results.map public_ip_row

/-- Row of the Traffic Manager query. -/
structure TmRow where
  name : Option String
  resourceGroup : Option String
  location : Option String
  id : Option String
  subscriptionId : Option String
  trafficRoutingMethod : Fld String
  profileStatus : Fld String
  dnsName : Fld String

/-- traffic_manager.py: one record per row. -/
def traffic_manager_row (item : TmRow) : ResourceRecord :=
  { name := item.name.getD ""
    type := "microsoft.network/trafficmanagerprofiles"
    type_display := "Traffic Manager"
    resource_group := item.resourceGroup.getD ""
    location := item.location.getD "global"
    id := item.id.getD ""
    subscription_id := item.subscriptionId.getD ""
    cost := estimate_traffic_manager_cost 0 0
    cost_display := format_cost (estimate_traffic_manager_cost 0 0)
    details := joinPipe
      ((if sTruthy (item.trafficRoutingMethod.get "") then
          ["Routing: " ++ pyShow (item.trafficRoutingMethod.get "")] else []) ++
       (if sTruthy (item.profileStatus.get "") then
          ["Status: " ++ pyShow (item.profileStatus.get "")] else []) ++
       (if sTruthy (item.dnsName.get "") then
          ["DNS: " ++ pyShow (item.dnsName.get "")] else []) ++
       ["No endpoints"])
    risk_level := get_risk_level "microsoft.network/trafficmanagerprofiles" }

/-- traffic_manager.py `detect_orphaned_traffic_managers`. -/
def detect_orphaned_traffic_managers (results : List TmRow) : List ResourceRecord :=
  results.map traffic_manager_row

/-- Row of the Front Door WAF query. -/
structure FdWafRow where
  name : Option String
  resourceGroup : Option String
  location : Option String
  id : Option String
  subscriptionId : Option String
  customRulesCount : Fld ℤ
  managedRulesCount : Fld ℤ
  policySettings : Fld (List (String × String))

/-- frontdoor_waf.py: one record per row. -/
def frontdoor_waf_row (item : FdWafRow) : ResourceRecord :=
  { name := item.name.getD ""
    type := "microsoft.network/frontdoorwebapplicationfirewallpolicies"
    type_display := "FD WAF Policy"
    resource_group := item.resourceGroup.getD ""
    location := item.location.getD "global"
    id := item.id.getD ""
    subscription_id := item.subscriptionId.getD ""
    cost := estimate_frontdoor_waf_cost (pyOrZ (item.customRulesCount.get 0) 0)
    cost_display := format_cost (estimate_frontdoor_waf_cost (pyOrZ (item.customRulesCount.get 0) 0))
    details := joinPipe
      ((if pyOrZ (item.customRulesCount.get 0) 0 > 0 then
          [toString (pyOrZ (item.customRulesCount.get 0) 0) ++ " custom rules"] else []) ++
       (if pyOrZ (item.managedRulesCount.get 0) 0 > 0 then
          [toString (pyOrZ (item.managedRulesCount.get 0) 0) ++ " managed rulesets"] else []) ++
       (if ((pyOrL item.policySettings.getN).lookup "mode").getD "" ≠ "" then
          ["Mode: " ++ ((pyOrL item.policySettings.getN).lookup "mode").getD ""] else []) ++
       ["Not linked"])
    risk_level := get_risk_level "microsoft.network/frontdoorwebapplicationfirewallpolicies" }

/-- frontdoor_waf.py `detect_orphaned_frontdoor_waf_policies`. -/
def detect_orphaned_frontdoor_waf_policies (results : List FdWafRow) : List ResourceRecord :=
  results.map frontdoor_waf_row

/-- Row of the Private Endpoint query. -/
structure PeRow where
  name : Option String
  resourceGroup : Option String
  location : Option String
  id : Option String
  subscriptionId : Option String
  connectionState : Fld String
  subnet : Fld String

/-- private_endpoint.py: one record per row. -/
def private_endpoint_row (item : PeRow) : ResourceRecord :=
  { name := item.name.getD ""
    type := "microsoft.network/privateendpoints"
    type_display := "Private Endpoint"
    resource_group := item.resourceGroup.getD ""
    location := item.location.getD ""
    id := item.id.getD ""
    subscription_id := item.subscriptionId.getD ""
    cost := estimate_private_endpoint_cost
    cost_display := format_cost estimate_private_endpoint_cost
    details := joinPipe
      (["State: " ++ pyShow (item.connectionState.get "Disconnected")] ++
       (if sTruthy (item.subnet.get "") then
          ["Subnet: " ++ pyShow (item.subnet.get "")] else []))
    risk_level := get_risk_level "microsoft.network/privateendpoints" }

/-- private_endpoint.py `detect_orphaned_private_endpoints`. -/
def detect_orphaned_private_endpoints (results : List PeRow) : List ResourceRecord :=
  results.map private_endpoint_row

/-! ## Detectors (Priority 3: low/no cost) -/

/-- vm.py: the per-size disk-cost table for deallocated VMs (insertion
order preserved; the partial-match loop walks it in this order). -/
def VM_SIZE_DISK_COSTS : List (String × ℚ) :=
  [("standard_b1s", 5.0), ("standard_b1ms", 5.0), ("standard_b2s", 10.0),
   ("standard_b2ms", 10.0), ("standard_b4ms", 20.0),
   ("standard_d2s_v3", 15.0), ("standard_d4s_v3", 30.0),
   ("standard_d2_v3", 15.0), ("standard_d4_v3", 30.0),
   ("standard_ds1_v2", 10.0), ("standard_ds2_v2", 15.0),
   ("default", 10.0)]

/-- vm.py `estimate_stopped_vm_cost`: exact match, then first partial
match, then the "default" entry. -/
def estimate_stopped_vm_cost (vm_size : String) : ℚ :=
  match VM_SIZE_DISK_COSTS.lookup (if vm_size = "" then "" else pyLower vm_size) with
  | some c => c
  | none =>
    match VM_SIZE_DISK_COSTS.find?
        (fun kv => pyIn kv.1 (if vm_size = "" then "" else pyLower vm_size)) with
    | some kv => kv.2
    | none => (VM_SIZE_DISK_COSTS.lookup "default").getD 10.0

/-- Row of the stopped-VM query. -/
structure VmRow where
  name : Option String
  resourceGroup : Option String
  location : Option String
  id : Option String
  subscriptionId : Option String
  vmSize : Fld String
  osType : Fld String
  timeCreated : Fld String
  tags : Fld (List (String × String))

/-- vm.py: the per-row details fragments (base list, then the tag-derived
insert at the front). -/
def vm_details (ageDays : String → Option ℤ) (item : VmRow) : List String :=
  (fun parts =>
    if pyOrL item.tags.getN ≠ [] then
      (if ((pyOrL item.tags.getN).lookup "purpose").isSome then
        ("Purpose: " ++ ((pyOrL item.tags.getN).lookup "purpose").getD "") :: parts
      else if ((pyOrL item.tags.getN).lookup "environment").isSome then
        ("Env: " ++ ((pyOrL item.tags.getN).lookup "environment").getD "") :: parts
      else parts)
    else parts)
  ((if pyOrS (item.vmSize.get "") "" ≠ "" then
      [pyReplace (pyReplace (pyOrS (item.vmSize.get "") "") "Standard_" "") "_" " "] else []) ++
   (if sTruthy (item.osType.get "") then [pyShow (item.osType.get "")] else []) ++
   ["Deallocated"] ++
   (if format_age ageDays item.timeCreated.getN ≠ "" then
      ["Created " ++ format_age ageDays item.timeCreated.getN] else []))

/-- vm.py: one record per row. -/
def vm_row (ageDays : String → Option ℤ) (item : VmRow) : ResourceRecord :=
  { name := item.name.getD ""
    type := "microsoft.compute/virtualmachines"
    type_display := "Virtual Machine"
    resource_group := item.resourceGroup.getD ""
    location := item.location.getD ""
    id := item.id.getD ""
    subscription_id := item.subscriptionId.getD ""
    cost := estimate_stopped_vm_cost (pyOrS (item.vmSize.get "") "")
    cost_display := format_cost (estimate_stopped_vm_cost (pyOrS (item.vmSize.get "") ""))
    details := if vm_details ageDays item ≠ [] then joinPipe (vm_details ageDays item)
      else "Stopped VM"
    risk_level := get_risk_level "microsoft.compute/virtualmachines" }

/-- vm.py `detect_stopped_vms`. -/
def detect_stopped_vms (ageDays : String → Option ℤ) (results : List VmRow) :
    List ResourceRecord :=
  results.map (vm_row ageDays)

/-- One entry of a NIC row's ipConfigurations: whether
`config.get("properties", {}).get("publicIPAddress")` is truthy. -/
structure IpCfg where
  publicIPAddress : Bool
  deriving DecidableEq

/-- Row of the orphaned-NIC query. -/
structure NicRow where
  name : Option String
  resourceGroup : Option String
  location : Option String
  id : Option String
  subscriptionId : Option String
  ipConfigs : Fld (List IpCfg)
  tags : Fld (List (String × String))

/-- nic.py: the per-row cost (free NIC plus a Standard public IP when one
is attached). -/
def nic_cost (item : NicRow) : ℚ :=
  estimate_nic_cost +
    (if (pyOrL item.ipConfigs.getN).any (fun c => c.publicIPAddress) then
      estimate_public_ip_cost "Standard" else 0)

/-- nic.py: the per-row details fragments. -/
def nic_details (item : NicRow) : List String :=
  (fun parts =>
    if pyOrL item.tags.getN ≠ [] then
      (if ((pyOrL item.tags.getN).lookup "vm").isSome then
        ("VM: " ++ ((pyOrL item.tags.getN).lookup "vm").getD "") :: parts
      else if ((pyOrL item.tags.getN).lookup "purpose").isSome then
        parts ++ ["Purpose: " ++ ((pyOrL item.tags.getN).lookup "purpose").getD ""]
      else parts)
    else parts)
  ((match extract_vm_name_from_nic (item.name.getD "") with
    | some vm => if vm ≠ "" then ["VM: " ++ vm] else []
    | none => []) ++
   (if (pyOrL item.ipConfigs.getN).any (fun c => c.publicIPAddress) then
      ["Has Public IP (+$" ++ fmt2 (estimate_public_ip_cost "Standard") ++ "/mo)"]
    else ["No Public IP"]))

/-- nic.py: one record per row. -/
def nic_row (item : NicRow) : ResourceRecord :=
  { name := item.name.getD ""
    type := "microsoft.network/networkinterfaces"
    type_display := "Network Interface"
    resource_group := item.resourceGroup.getD ""
    location := item.location.getD ""
    id := item.id.getD ""
    subscription_id := item.subscriptionId.getD ""
    cost := nic_cost item
    cost_display := format_cost (nic_cost item)
    details := if nic_details item ≠ [] then joinPipe (nic_details item) else "Orphaned NIC"
    risk_level := get_risk_level "microsoft.network/networkinterfaces" }

/-- nic.py `detect_orphaned_nics`. -/
def detect_orphaned_nics (results : List NicRow) : List ResourceRecord :=
  results.map nic_row

/-- Row of the orphaned-NSG query. -/
structure NsgRow where
  name : Option String
  resourceGroup : Option String
  location : Option String
  id : Option String
  subscriptionId : Option String
  securityRulesCount : Fld ℤ

/-- nsg.py: one record per row. -/
def nsg_row (item : NsgRow) : ResourceRecord :=
  { name := item.name.getD ""
    type := "microsoft.network/networksecuritygroups"
    type_display := "NSG"
    resource_group := item.resourceGroup.getD ""
    location := item.location.getD ""
    id := item.id.getD ""
    subscription_id := item.subscriptionId.getD ""
    cost := estimate_nsg_cost
    cost_display := format_cost estimate_nsg_cost
    details := joinPipe
      ((if pyOrZ (item.securityRulesCount.get 0) 0 > 0 then
          [toString (pyOrZ (item.securityRulesCount.get 0) 0) ++ " custom rules"]
        else ["No custom rules"]) ++
       ["Not attached"])
    risk_level := get_risk_level "microsoft.network/networksecuritygroups" }

/-- nsg.py `detect_orphaned_nsgs`. -/
def detect_orphaned_nsgs (results : List NsgRow) : List ResourceRecord :=
  results.map nsg_row

/-- Row of the orphaned route-table query. -/
structure RtRow where
  name : Option String
  resourceGroup : Option String
  location : Option String
  id : Option String
  subscriptionId : Option String
  routesCount : Fld ℤ
  disableBgp : Fld Bool

/-- route_table.py: one record per row. -/
def route_table_row (item : RtRow) : ResourceRecord :=
  { name := item.name.getD ""
    type := "microsoft.network/routetables"
    type_display := "Route Table"
    resource_group := item.resourceGroup.getD ""
    location := item.location.getD ""
    id := item.id.getD ""
    subscription_id := item.subscriptionId.getD ""
    cost := estimate_route_table_cost
    cost_display := format_cost estimate_route_table_cost
    details := joinPipe
      ((if pyOrZ (item.routesCount.get 0) 0 > 0 then
          [toString (pyOrZ (item.routesCount.get 0) 0) ++ " routes"]
        else ["No routes"]) ++
       (if bTruthy (item.disableBgp.get false) then ["BGP disabled"] else []) ++
       ["Not attached"])
    risk_level := get_risk_level "microsoft.network/routetables" }

/-- route_table.py `detect_orphaned_route_tables`. -/
def detect_orphaned_route_tables (results : List RtRow) : List ResourceRecord :=
  results.map route_table_row

/-- Row of the empty availability-set query. -/
structure AvSetRow where
  name : Option String
  resourceGroup : Option String
  location : Option String
  id : Option String
  subscriptionId : Option String
  faultDomains : Fld ℤ
  updateDomains : Fld ℤ
  sku : Fld String

/-- availability_set.py: one record per row. -/
def availability_set_row (item : AvSetRow) : ResourceRecord :=
  { name := item.name.getD ""
    type := "microsoft.compute/availabilitysets"
    type_display := "Avail Set"
    resource_group := item.resourceGroup.getD ""
    location := item.location.getD ""
    id := item.id.getD ""
    subscription_id := item.subscriptionId.getD ""
    cost := estimate_availability_set_cost
    cost_display := format_cost estimate_availability_set_cost
    details := joinPipe
      ["SKU: " ++ pyOrS (item.sku.get "Classic") "Classic",
       "FD: " ++ toString (pyOrZ (item.faultDomains.get 2) 2),
       "UD: " ++ toString (pyOrZ (item.updateDomains.get 5) 5),
       "No VMs"]
    risk_level := get_risk_level "microsoft.compute/availabilitysets" }

/-- availability_set.py `detect_orphaned_availability_sets`. -/
def detect_orphaned_availability_sets (results : List AvSetRow) : List ResourceRecord :=
  results.map availability_set_row

/-- Row of the orphaned IP-group query. -/
structure IpGroupRow where
  name : Option String
  resourceGroup : Option String
  location : Option String
  id : Option String
  subscriptionId : Option String
  ipAddressCount : Fld ℤ

/-- ip_group.py: one record per row. -/
def ip_group_row (item : IpGroupRow) : ResourceRecord :=
  { name := item.name.getD ""
    type := "microsoft.network/ipgroups"
    type_display := "IP Group"
    resource_group := item.resourceGroup.getD ""
    location := item.location.getD ""
    id := item.id.getD ""
    subscription_id := item.subscriptionId.getD ""
    cost := estimate_ip_group_cost
    cost_display := format_cost estimate_ip_group_cost
    details := joinPipe
      ((if pyOrZ (item.ipAddressCount.get 0) 0 > 0 then
          [toString (pyOrZ (item.ipAddressCount.get 0) 0) ++ " IP(s)"]
        else ["Empty"]) ++
       ["No firewall associations"])
    risk_level := get_risk_level "microsoft.network/ipgroups" }

/-- ip_group.py `detect_orphaned_ip_groups`. -/
def detect_orphaned_ip_groups (results : List IpGroupRow) : List ResourceRecord :=
  results.map ip_group_row

/-- Row of the private DNS zone query. -/
structure PdnsRow where
  name : Option String
  resourceGroup : Option String
  location : Option String
  id : Option String
  subscriptionId : Option String
  recordCount : Fld ℤ
  maxRecords : Fld ℤ

/-- private_dns.py: one record per row. -/
def private_dns_row (item : PdnsRow) : ResourceRecord :=
  { name := item.name.getD ""
    type := "microsoft.network/privatednszones"
    type_display := "Private DNS"
    resource_group := item.resourceGroup.getD ""
    location := item.location.getD "global"
    id := item.id.getD ""
    subscription_id := item.subscriptionId.getD ""
    cost := estimate_private_dns_zone_cost
    cost_display := format_cost estimate_private_dns_zone_cost
    details := joinPipe
      ((if pyOrZ (item.recordCount.get 0) 0 > 0 then
          [toString (pyOrZ (item.recordCount.get 0) 0) ++ " records"]
        else ["No records"]) ++
       ["No VNet links"])
    risk_level := get_risk_level "microsoft.network/privatednszones" }

/-- private_dns.py `detect_orphaned_private_dns_zones`. -/
def detect_orphaned_private_dns_zones (results : List PdnsRow) : List ResourceRecord :=
  results.map private_dns_row

/-- Row of the empty resource-group query (no resourceGroup column; the
group is itself). -/
structure RgRow where
  name : Option String
  location : Option String
  id : Option String
  subscriptionId : Option String
  tags : Fld (List (String × String))

/-- resource_group.py: one record per row. -/
def resource_group_row (item : RgRow) : ResourceRecord :=
  { name := item.name.getD ""
    type := "microsoft.resources/subscriptions/resourcegroups"
    type_display := "Resource Group"
    resource_group := item.name.getD ""
    location := item.location.getD ""
    id := item.id.getD ""
    subscription_id := item.subscriptionId.getD ""
    cost := estimate_resource_group_cost
    cost_display := format_cost estimate_resource_group_cost
    details := joinPipe
      ((fun parts =>
        if pyOrL item.tags.getN ≠ [] then
          (if ((pyOrL item.tags.getN).lookup "environment").isSome then
            ("Env: " ++ ((pyOrL item.tags.getN).lookup "environment").getD "") :: parts
          else if ((pyOrL item.tags.getN).lookup "purpose").isSome then
            ("Purpose: " ++ ((pyOrL item.tags.getN).lookup "purpose").getD "") :: parts
          else if ((pyOrL item.tags.getN).lookup "owner").isSome then
            ("Owner: " ++ ((pyOrL item.tags.getN).lookup "owner").getD "") :: parts
          else parts)
        else parts) ["Empty"])
    risk_level := get_risk_level "microsoft.resources/subscriptions/resourcegroups" }

/-- resource_group.py `detect_empty_resource_groups`. -/
def detect_empty_resource_groups (results : List RgRow) : List ResourceRecord :=
  results.map resource_group_row

/-- Row of the failed API-connection query. -/
structure ApiConnRow where
  name : Option String
  resourceGroup : Option String
  location : Option String
  id : Option String
  subscriptionId : Option String
  status : Fld String
  errorMessage : Fld String
  api : Fld String

/-- api_connection.py: one record per row. -/
def api_connection_row (item : ApiConnRow) : ResourceRecord :=
  { name := item.name.getD ""
    type := "microsoft.web/connections"
    type_display := "API Connection"
    resource_group := item.resourceGroup.getD ""
    location := item.location.getD ""
    id := item.id.getD ""
    subscription_id := item.subscriptionId.getD ""
    cost := estimate_api_connection_cost
    cost_display := format_cost estimate_api_connection_cost
    details := joinPipe
      ((if sTruthy (item.api.get "") then ["API: " ++ pyShow (item.api.get "")] else []) ++
       ["Status: " ++ pyShow (item.status.get "Error")] ++
       (if sTruthy (item.errorMessage.get "") ∧
            (pyShow (item.errorMessage.get "")).length < 50 then
          [pyShow (item.errorMessage.get "")] else []))
    risk_level := get_risk_level "microsoft.web/connections" }

/-- api_connection.py `detect_failed_api_connections`. -/
def detect_failed_api_connections (results : List ApiConnRow) : List ResourceRecord :=
  results.map api_connection_row

/-- Row of the expired-certificate query. -/
structure CertRow where
  name : Option String
  resourceGroup : Option String
  location : Option String
  id : Option String
  subscriptionId : Option String
  expirationDate : Fld String
  issuer : Fld String
  subjectName : Fld String
  thumbprint : Fld String

/-- certificate.py: the "Expired N days ago" phrase; `expDays s` abstracts
`(datetime.now(tz) - fromisoformat(...)).days`, `none` a parse failure. -/
def cert_days_expired (expDays : String → Option ℤ) (item : CertRow) : String :=
  if sTruthy (item.expirationDate.get "") then
    match expDays (pyShow (item.expirationDate.get "")) with
    | some d => "Expired " ++ toString d ++ " days ago"
    | none => ""
  else ""

/-- certificate.py: the per-row details fragments. -/
def cert_details (expDays : String → Option ℤ) (item : CertRow) : List String :=
  (if cert_days_expired expDays item ≠ "" then [cert_days_expired expDays item] else []) ++
  (if sTruthy (item.subjectName.get "") ∧ (pyShow (item.subjectName.get "")).length < 40 then
    ["Subject: " ++ pyShow (item.subjectName.get "")] else []) ++
  (if sTruthy (item.issuer.get "") ∧ (pyShow (item.issuer.get "")).length < 30 then
    ["Issuer: " ++ pyShow (item.issuer.get "")] else []) ++
  (if sTruthy (item.thumbprint.get "") then
    ["Thumb: " ++ (pyShow (item.thumbprint.get "")).take 8 ++ "..."] else [])

/-- certificate.py: one record per row. -/
def certificate_row (expDays : String → Option ℤ) (item : CertRow) : ResourceRecord :=
  { name := item.name.getD ""
    type := "microsoft.web/certificates"
    type_display := "Certificate"
    resource_group := item.resourceGroup.getD ""
    location := item.location.getD ""
    id := item.id.getD ""
    subscription_id := item.subscriptionId.getD ""
    cost := estimate_certificate_cost
    cost_display := format_cost estimate_certificate_cost
    details := if cert_details expDays item ≠ [] then joinPipe (cert_details expDays item)
      else "Expired certificate"
    risk_level := get_risk_level "microsoft.web/certificates" }

/-- certificate.py `detect_expired_certificates`. -/
def detect_expired_certificates (expDays : String → Option ℤ) (results : List CertRow) :
    List ResourceRecord :=
  results.map (certificate_row expDays)

/-! ## Scan orchestration

scanner.py `AzureScanner.scan` and the worker loop of app.py
`_start_scan` both iterate the registry in order; a detector invocation
is abstracted to its outcome: it raised, returned None, or returned a
list of records. -/

/-- The outcome of invoking one detector against the injected query
function. -/
inductive DetOutcome (R : Type) where
  | raises : DetOutcome R
  | retNone : DetOutcome R
  | ret : List R → DetOutcome R

/-- scanner.py scan-loop body: a raising detector is logged and skipped,
a None result is normalized to the empty list, otherwise the results
extend the aggregate. -/
def scanStep {R : Type} (acc : List R) : DetOutcome R → List R
  | .raises => acc
  | .retNone => acc ++ []
  | .ret rs => acc ++ rs

/-- scanner.py `AzureScanner.scan`: fold the loop body over the registry
outcomes, starting from the empty aggregate. -/
def scan {R : Type} (ds : List (DetOutcome R)) : List R := ds.foldl scanStep []

theorem foldl_scanStep {R : Type} (ds : List (DetOutcome R)) :
    ∀ init : List R, ds.foldl scanStep init = init ++ scan ds := by
  induction ds with
  | nil => intro init; simp [scan]
  | cons d ds ih =>
    intro init
    have hstep : ∀ acc : List R, scanStep acc d = acc ++ scanStep [] d := by
      intro acc
      cases d <;> simp [scanStep]
    rw [List.foldl_cons, ih, hstep]
    conv_rhs => rw [show scan (d :: ds) = List.foldl scanStep (scanStep [] d) ds from rfl]
    rw [ih (scanStep [] d)]
    rw [List.append_assoc]

theorem scan_append {R : Type} (xs ys : List (DetOutcome R)) :
    scan (xs ++ ys) = scan xs ++ scan ys := by
  unfold scan
  rw [List.foldl_append, foldl_scanStep]
  rfl

/-- app.py `_start_scan` worker loop: `g n` is the value the cancellation
flag shows at its n-th read from the current point (the flag is written
by the interface thread; reads are the two `if self._scan_cancelled`
checks). A raising detector skips the post-call check (`continue`), and
only non-None, nonempty results are streamed into the grid. The value is
the grid contents when the loop returns. -/
def appScan {R : Type} (g : ℕ → Bool) (grid : List R) : List (DetOutcome R) → List R
  | [] => grid
  | d :: ds =>
    if g 0 then grid
    else
      match d with
      | .raises => appScan (fun j => g (j + 1)) grid ds
      | .retNone => if g 1 then grid else appScan (fun j => g (j + 2)) (grid ++ []) ds
      | .ret rs => if g 1 then grid else appScan (fun j => g (j + 2)) (grid ++ rs) ds

/-- app.py `_start_scan`: `self.grid.clear()` runs before the worker
thread starts, so the prior aggregate is discarded. -/
def gridClear {R : Type} (_grid : List R) : List R := []

/-- app.py `_start_scan`: the grid contents after a scan started over a
prior displayed aggregate. -/
def startScanFinalGrid {R : Type} (prior : List R) (g : ℕ → Bool)
    (ds : List (DetOutcome R)) : List R :=
  appScan g (gridClear prior) ds

/-- Streaming only appends: the grid during a run is the grid at the
start of the run followed by what this run streamed. -/
theorem appScan_grid {R : Type} (ds : List (DetOutcome R)) :
    ∀ (g : ℕ → Bool) (grid : List R), appScan g grid ds = grid ++ appScan g [] ds := by
  induction ds with
  | nil => intro g grid; simp [appScan]
  | cons d ds ih =>
    intro g grid
    cases d with
    | raises =>
      simp only [appScan]
      by_cases h0 : g 0
      · rw [if_pos h0, if_pos h0]; simp
      · rw [if_neg h0, if_neg h0]
        exact ih _ _
    | retNone =>
      simp only [appScan]
      by_cases h0 : g 0
      · rw [if_pos h0, if_pos h0]; simp
      · rw [if_neg h0, if_neg h0]
        by_cases h1 : g 1
        · rw [if_pos h1, if_pos h1]; simp
        · rw [if_neg h1, if_neg h1, ih _ (grid ++ []), ih _ ([] ++ [])]
          simp
    | ret rs =>
      simp only [appScan]
      by_cases h0 : g 0
      · rw [if_pos h0, if_pos h0]; simp
      · rw [if_neg h0, if_neg h0]
        by_cases h1 : g 1
        · rw [if_pos h1, if_pos h1]; simp
        · rw [if_neg h1, if_neg h1, ih _ (grid ++ rs), ih _ ([] ++ rs)]
          simp

/-- C1: a raising detector is skipped: it contributes no records, every
other detector still contributes, and the aggregate is exactly the
concatenation of the other detectors' outputs (scanner.py scan loop;
the app.py loop behaves the same on errors). -/
theorem c1_failed_detector_isolated :
    ∀ (pre post : List (DetOutcome ResourceRecord)),
      scan (pre ++ DetOutcome.raises :: post) = scan pre ++ scan post ∧
      scan (pre ++ post) = scan pre ++ scan post := by
  intro pre post
  constructor
  · rw [scan_append]
    have : scan (DetOutcome.raises :: post) = scan post := by
      unfold scan
      rw [List.foldl_cons]
      rfl
    rw [this]
  · exact scan_append pre post

/-- C2: if the cancellation flag first reads true at the check before
detector k+1 (all reads through detector k's completion were false), the
grid holds exactly the union of the first k detectors' outputs and
nothing from the rest (app.py worker loop; partial results are kept). -/
theorem c2_cancellation_boundary :
    ∀ (ds : List (List ResourceRecord)) (k : ℕ),
      appScan (fun j => decide (2 * k ≤ j)) [] (ds.map DetOutcome.ret) =
        (ds.take k).join := by
  intro ds
  induction ds with
  | nil => intro k; cases k <;> rfl
  | cons d ds ih =>
    intro k
    cases k with
    | zero => rfl
    | succ m =>
      simp only [List.map_cons]
      simp only [appScan]
      rw [if_neg (by simp), if_neg (by simp; omega)]
      have hg : (fun j => decide (2 * (m + 1) ≤ j + 2)) = fun j => decide (2 * m ≤ j) := by
        funext j
        rw [decide_eq_decide]
        omega
      rw [hg, appScan_grid, ih m]
      simp

/-- C9: a rescan replaces rather than appends: with any prior aggregate
and all detectors returning empty, the final grid is empty; the final
grid never depends on the prior aggregate; and within a run streaming
only appends to the current grid. -/
theorem c9_rescan_replaces :
    (∀ (prior : List ResourceRecord) (n : ℕ),
      (startScanFinalGrid prior (fun _ => false)
        (List.replicate n (DetOutcome.ret []))).length = 0) ∧
    (∀ (prior prior2 : List ResourceRecord) (g : ℕ → Bool)
        (ds : List (DetOutcome ResourceRecord)),
      startScanFinalGrid prior g ds = startScanFinalGrid prior2 g ds) ∧
    (∀ (grid : List ResourceRecord) (g : ℕ → Bool) (ds : List (DetOutcome ResourceRecord)),
      appScan g grid ds = grid ++ appScan g [] ds) := by
  refine ⟨?_, ?_, ?_⟩
  · intro prior n
    unfold startScanFinalGrid gridClear
    induction n with
    | zero => rfl
    | succ m ih =>
      rw [List.replicate_succ]
      unfold appScan
      rw [if_neg (by simp), if_neg (by simp)]
      exact ih
  · intro prior prior2 g ds
    rfl
  · intro grid g ds
    exact appScan_grid ds g grid

/-! ## Cost evaluations and nonnegativity -/

theorem estimate_app_gateway_default : estimate_app_gateway_cost "Standard_v2" 2 = 194.18 := by
  unfold estimate_app_gateway_cost
  have h : pyIn "waf" (pyLower "Standard_v2") = false := rfl
  simp only [h, Bool.false_eq_true, if_false]
  rw [round2_eq (show ((0.25 : ℚ) * 730 + 0.008 * ((2 : ℤ) : ℚ) * 730) * 100 =
    ((19418 : ℤ) : ℚ) by norm_num)]
  norm_num

theorem estimate_nat_gateway_zero : estimate_nat_gateway_cost 0 = 32.85 := by
  unfold estimate_nat_gateway_cost
  rw [round2_eq (show ((0.045 : ℚ) * 730 + 0.045 * 0) * 100 = ((3285 : ℤ) : ℚ) by norm_num)]
  norm_num

theorem estimate_lb_standard_zero : estimate_load_balancer_cost "Standard" 0 = 18.25 := by
  unfold estimate_load_balancer_cost
  have h : pyLower "Standard" = "basic" ↔ False := by
    constructor
    · intro hc
      exact absurd (congrArg String.data hc) (by decide)
    · exact False.elim
  rw [if_neg h.mp]
  rw [round2_eq (show ((0.025 : ℚ) * 730 + 0.005 * ((max 0 ((0 : ℤ) - 5) : ℤ) : ℚ) * 730) * 100 =
    ((1825 : ℤ) : ℚ) by norm_num)]
  norm_num

theorem estimate_sql_default_eval : estimate_sql_elastic_pool_cost 50 "Standard" = 821.25 := by
  unfold estimate_sql_elastic_pool_cost
  have h : List.lookup (pyLower "Standard") sql_pool_tier_rates = some 0.0225 := rfl
  rw [h, Option.getD_some]
  rw [round2_eq (show ((50 : ℤ) : ℚ) * 0.0225 * 730 * 100 = ((82125 : ℤ) : ℚ) by norm_num)]
  norm_num

theorem estimate_disk_zero : estimate_disk_cost 0 "Standard_LRS" = 0 := by
  unfold estimate_disk_cost
  have h1 : pyIn "premium" (pyLower "Standard_LRS") = false := rfl
  have h2 : pyIn "standardssd" (pyLower "Standard_LRS") = false := rfl
  simp only [h1, h2, Bool.false_eq_true, if_false]
  rw [round2_eq (show ((0 : ℤ) : ℚ) * 0.05 * 100 = ((0 : ℤ) : ℚ) by norm_num)]
  norm_num

theorem estimate_tm_zero : estimate_traffic_manager_cost 0 0 = 0 := by
  unfold estimate_traffic_manager_cost
  rw [round2_eq (show ((0.54 : ℚ) * 0 + 0.36 * ((0 : ℤ) : ℚ)) * 100 = ((0 : ℤ) : ℚ) by norm_num)]
  norm_num

theorem estimate_fd_zero : estimate_frontdoor_waf_cost 0 = 5.0 := by
  unfold estimate_frontdoor_waf_cost
  rw [round2_eq (show ((5.0 : ℚ) + 1.0 * ((0 : ℤ) : ℚ)) * 100 = ((500 : ℤ) : ℚ) by norm_num)]
  norm_num

theorem estimate_pe_eval : estimate_private_endpoint_cost = 7.3 := by
  unfold estimate_private_endpoint_cost
  rw [round2_eq (show ((0.01 : ℚ) * 730) * 100 = ((730 : ℤ) : ℚ) by norm_num)]
  norm_num

theorem estimate_public_ip_cost_nonneg (s : String) : 0 ≤ estimate_public_ip_cost s := by
  unfold estimate_public_ip_cost
  split <;> norm_num

theorem estimate_vnet_gateway_cost_nonneg (s : String) : 0 ≤ estimate_vnet_gateway_cost s := by
  unfold estimate_vnet_gateway_cost
  cases h : List.lookup (normSku s) vnet_gateway_sku_costs with
  | none => norm_num
  | some c =>
    rw [Option.getD_some]
    obtain ⟨a, ha⟩ := lookup_mem h
    fin_cases ha <;> norm_num

theorem estimate_app_service_plan_cost_nonneg (t s : String) :
    0 ≤ estimate_app_service_plan_cost t s := by
  unfold estimate_app_service_plan_cost
  cases h : List.lookup (normSku s) app_service_plan_sku_costs with
  | none => norm_num
  | some c =>
    rw [Option.getD_some]
    obtain ⟨a, ha⟩ := lookup_mem h
    fin_cases ha <;> norm_num

theorem estimate_stopped_vm_cost_nonneg (s : String) : 0 ≤ estimate_stopped_vm_cost s := by
  unfold estimate_stopped_vm_cost
  cases h : List.lookup (if s = "" then "" else pyLower s) VM_SIZE_DISK_COSTS with
  | some c =>
    obtain ⟨a, ha⟩ := lookup_mem h
    fin_cases ha <;> norm_num
  | none =>
    cases hf : List.find? (fun kv => pyIn kv.1 (if s = "" then "" else pyLower s))
        VM_SIZE_DISK_COSTS with
    | some kv =>
      have hm := List.mem_of_find?_eq_some hf
      fin_cases hm <;> norm_num
    | none =>
      have hd : (List.lookup "default" VM_SIZE_DISK_COSTS).getD 10.0 = 10.0 := rfl
      rw [hd]
      norm_num

theorem estimate_sql_rate_nonneg (tier : String) :
    0 ≤ (List.lookup (pyLower tier) sql_pool_tier_rates).getD 0.0225 := by
  cases h : List.lookup (pyLower tier) sql_pool_tier_rates with
  | none => norm_num
  | some c =>
    rw [Option.getD_some]
    obtain ⟨a, ha⟩ := lookup_mem h
    fin_cases ha <;> norm_num

/-- An or-coalesced integer field is nonnegative when the defaults are
and any explicit value is. -/
theorem pyOrZ_nonneg {f : Fld ℤ} {d e : ℤ} (hd : 0 ≤ d) (he : 0 ≤ e)
    (h : ∀ n : ℤ, f = Fld.val n → 0 ≤ n) : 0 ≤ pyOrZ (f.get d) e := by
  cases f with
  | miss =>
    show 0 ≤ if d = 0 then e else d
    split <;> assumption
  | null => exact he
  | val n =>
    show 0 ≤ if n = 0 then e else n
    split
    · exact he
    · exact h n rfl

/-! ## Rows with every optional field absent -/

def ddosRow0 : DdosRow := ⟨none, none, none, none, none, .miss⟩

def appGwRow0 : AppGwRow := ⟨none, none, none, none, none, .miss, .miss⟩

def vnetGwRow0 : VnetGwRow := ⟨none, none, none, none, none, .miss, .miss⟩

def sqlPoolRow0 : SqlPoolRow := ⟨none, none, none, none, none, .miss, .miss, .miss⟩

def aspRow0 : AspRow := ⟨none, none, none, none, none, .miss, .miss, .miss, .miss, .miss⟩

def natGwRow0 : NatGwRow := ⟨none, none, none, none, none, .miss, .miss, .miss⟩

def lbRow0 : LbRow := ⟨none, none, none, none, none, .miss, .miss, .miss⟩

def diskRow0 : DiskRow := ⟨none, none, none, none, none, .miss, .miss, .miss, .miss⟩

def pubIpRow0 : PubIpRow := ⟨none, none, none, none, none, .miss, .miss, .miss, .miss⟩

def tmRow0 : TmRow := ⟨none, none, none, none, none, .miss, .miss, .miss⟩

def fdWafRow0 : FdWafRow := ⟨none, none, none, none, none, .miss, .miss, .miss⟩

def peRow0 : PeRow := ⟨none, none, none, none, none, .miss, .miss⟩

def vmRow0 : VmRow := ⟨none, none, none, none, none, .miss, .miss, .miss, .miss⟩

def nicRow0 : NicRow := ⟨none, none, none, none, none, .miss, .miss⟩

def nsgRow0 : NsgRow := ⟨none, none, none, none, none, .miss⟩

def rtRow0 : RtRow := ⟨none, none, none, none, none, .miss, .miss⟩

def avSetRow0 : AvSetRow := ⟨none, none, none, none, none, .miss, .miss, .miss⟩

def ipGroupRow0 : IpGroupRow := ⟨none, none, none, none, none, .miss⟩

def pdnsRow0 : PdnsRow := ⟨none, none, none, none, none, .miss, .miss⟩

def rgRow0 : RgRow := ⟨none, none, none, none, .miss⟩

def apiConnRow0 : ApiConnRow := ⟨none, none, none, none, none, .miss, .miss, .miss⟩

def certRow0 : CertRow := ⟨none, none, none, none, none, .miss, .miss, .miss, .miss⟩

/-- API-connection row whose optional fields are present but null. -/
def apiConnRowNull : ApiConnRow := ⟨none, none, none, none, none, .null, .null, .null⟩

/-- C3 counterexample: with a null (rather than absent) `status`, the API
connection detector renders the literal "Status: None" instead of
substituting the documented default "Error", so a null optional field is
not independently replaced by its default. -/
theorem c3_null_status_not_defaulted :
    (detect_failed_api_connections [apiConnRowNull]).map ResourceRecord.details =
      ["Status: None"] ∧
    (detect_failed_api_connections [apiConnRow0]).map ResourceRecord.details =
      ["Status: Error"] ∧
    ("Status: None" : String) ≠ "Status: Error" := by
  refine ⟨rfl, rfl, ?_⟩
  decide

/-- C3 (amended): every detector maps each input row to exactly one
record (output length equals input length), and on a row with every
optional field absent it emits the record with cost 0 or that detector's
documented default and with only its unconditional details fragments,
each absent field replaced by its default. (A present-but-null field is
likewise defaulted wherever the source or-coalesces it; the two fields
read only via `.get` — private-endpoint connection state and
API-connection status — render a null literally, see the
counterexample.) -/
theorem c3_missing_fields_defaulted :
    ((∀ rows : List DdosRow, (detect_orphaned_ddos_plans rows).length = rows.length) ∧
      (ddos_plan_row ddosRow0).cost = 2944.00 ∧
      (ddos_plan_row ddosRow0).details = "No protected VNets | HIGH COST") ∧
    ((∀ rows : List AppGwRow, (detect_orphaned_app_gateways rows).length = rows.length) ∧
      (app_gateway_row appGwRow0).cost = 194.18 ∧
      (app_gateway_row appGwRow0).details = "Tier: Standard_v2 | Capacity: 2 | Empty backend pools") ∧
    ((∀ rows : List VnetGwRow, (detect_orphaned_vnet_gateways rows).length = rows.length) ∧
      (vnet_gateway_row vnetGwRow0).cost = 140.00 ∧
      (vnet_gateway_row vnetGwRow0).details = "Type: Vpn | SKU: VpnGw1 | No connections") ∧
    ((∀ rows : List SqlPoolRow, (detect_orphaned_sql_elastic_pools rows).length = rows.length) ∧
      (sql_elastic_pool_row sqlPoolRow0).cost = 821.25 ∧
      (sql_elastic_pool_row sqlPoolRow0).details =
        "SKU: StandardPool | Tier: Standard | 50 eDTU | No databases") ∧
    ((∀ rows : List AspRow, (detect_orphaned_app_service_plans rows).length = rows.length) ∧
      (app_service_plan_row aspRow0).cost = 55.0 ∧
      (app_service_plan_row aspRow0).details = "SKU: B1 | No apps") ∧
    ((∀ rows : List NatGwRow, (detect_orphaned_nat_gateways rows).length = rows.length) ∧
      (nat_gateway_row natGwRow0).cost = 32.85 ∧
      (nat_gateway_row natGwRow0).details = "Idle: 4min | Not attached to subnet") ∧
    ((∀ rows : List LbRow, (detect_orphaned_load_balancers rows).length = rows.length) ∧
      (load_balancer_row lbRow0).cost = 18.25 ∧
      (load_balancer_row lbRow0).details = "SKU: Standard | Empty backend") ∧
    ((∀ (g : String → Option ℤ) (rows : List DiskRow),
        (detect_unattached_disks g rows).length = rows.length) ∧
      (∀ g : String → Option ℤ, (disk_row g diskRow0).cost = 0) ∧
      (∀ g : String → Option ℤ, (disk_row g diskRow0).details = "0 GB")) ∧
    ((∀ rows : List PubIpRow, (detect_unused_public_ips rows).length = rows.length) ∧
      (public_ip_row pubIpRow0).cost = 3.65 ∧
      (public_ip_row pubIpRow0).details = "SKU: Basic") ∧
    ((∀ rows : List TmRow, (detect_orphaned_traffic_managers rows).length = rows.length) ∧
      (traffic_manager_row tmRow0).cost = 0 ∧
      (traffic_manager_row tmRow0).details = "No endpoints") ∧
    ((∀ rows : List FdWafRow,
        (detect_orphaned_frontdoor_waf_policies rows).length = rows.length) ∧
      (frontdoor_waf_row fdWafRow0).cost = 5.0 ∧
      (frontdoor_waf_row fdWafRow0).details = "Not linked") ∧
    ((∀ rows : List PeRow, (detect_orphaned_private_endpoints rows).length = rows.length) ∧
      (private_endpoint_row peRow0).cost = 7.3 ∧
      (private_endpoint_row peRow0).details = "State: Disconnected") ∧
    ((∀ (g : String → Option ℤ) (rows : List VmRow),
        (detect_stopped_vms g rows).length = rows.length) ∧
      (∀ g : String → Option ℤ, (vm_row g vmRow0).cost = 10.0) ∧
      (∀ g : String → Option ℤ, (vm_row g vmRow0).details = "Deallocated")) ∧
    ((∀ rows : List NicRow, (detect_orphaned_nics rows).length = rows.length) ∧
      (nic_row nicRow0).cost = 0 ∧
      (nic_row nicRow0).details = "No Public IP") ∧
    ((∀ rows : List NsgRow, (detect_orphaned_nsgs rows).length = rows.length) ∧
      (nsg_row nsgRow0).cost = 0 ∧
      (nsg_row nsgRow0).details = "No custom rules | Not attached") ∧
    ((∀ rows : List RtRow, (detect_orphaned_route_tables rows).length = rows.length) ∧
      (route_table_row rtRow0).cost = 0 ∧
      (route_table_row rtRow0).details = "No routes | Not attached") ∧
    ((∀ rows : List AvSetRow,
        (detect_orphaned_availability_sets rows).length = rows.length) ∧
      (availability_set_row avSetRow0).cost = 0 ∧
      (availability_set_row avSetRow0).details = "SKU: Classic | FD: 2 | UD: 5 | No VMs") ∧
    ((∀ rows : List IpGroupRow, (detect_orphaned_ip_groups rows).length = rows.length) ∧
      (ip_group_row ipGroupRow0).cost = 0 ∧
      (ip_group_row ipGroupRow0).details = "Empty | No firewall associations") ∧
    ((∀ rows : List PdnsRow,
        (detect_orphaned_private_dns_zones rows).length = rows.length) ∧
      (private_dns_row pdnsRow0).cost = 0.50 ∧
      (private_dns_row pdnsRow0).details = "No records | No VNet links") ∧
    ((∀ rows : List RgRow, (detect_empty_resource_groups rows).length = rows.length) ∧
      (resource_group_row rgRow0).cost = 0 ∧
      (resource_group_row rgRow0).details = "Empty") ∧
    ((∀ rows : List ApiConnRow,
        (detect_failed_api_connections rows).length = rows.length) ∧
      (api_connection_row apiConnRow0).cost = 0 ∧
      (api_connection_row apiConnRow0).details = "Status: Error") ∧
    ((∀ (g : String → Option ℤ) (rows : List CertRow),
        (detect_expired_certificates g rows).length = rows.length) ∧
      (∀ g : String → Option ℤ, (certificate_row g certRow0).cost = 0) ∧
      (∀ g : String → Option ℤ, (certificate_row g certRow0).details = "Expired certificate")) := by
  refine ⟨⟨?_, ?_, ?_⟩, ⟨?_, ?_, ?_⟩, ⟨?_, ?_, ?_⟩, ⟨?_, ?_, ?_⟩, ⟨?_, ?_, ?_⟩,
    ⟨?_, ?_, ?_⟩, ⟨?_, ?_, ?_⟩, ⟨?_, ?_, ?_⟩, ⟨?_, ?_, ?_⟩, ⟨?_, ?_, ?_⟩,
    ⟨?_, ?_, ?_⟩, ⟨?_, ?_, ?_⟩, ⟨?_, ?_, ?_⟩, ⟨?_, ?_, ?_⟩, ⟨?_, ?_, ?_⟩,
    ⟨?_, ?_, ?_⟩, ⟨?_, ?_, ?_⟩, ⟨?_, ?_, ?_⟩, ⟨?_, ?_, ?_⟩, ⟨?_, ?_, ?_⟩,
    ⟨?_, ?_, ?_⟩, ⟨?_, ?_, ?_⟩⟩
  · intro rows; simp [detect_orphaned_ddos_plans]
  · rfl
  · rfl
  · intro rows; simp [detect_orphaned_app_gateways]
  · exact estimate_app_gateway_default
  · rfl
  · intro rows; simp [detect_orphaned_vnet_gateways]
  · rfl
  · rfl
  · intro rows; simp [detect_orphaned_sql_elastic_pools]
  · exact estimate_sql_default_eval
  · rfl
  · intro rows; simp [detect_orphaned_app_service_plans]
  · show asp_cost aspRow0 = 55.0
    unfold asp_cost
    have h1 : estimate_app_service_plan_cost (pyOrS (aspRow0.tier.get "Basic") "Basic")
        (pyOrS (aspRow0.size.get "B1") "B1") = 55.0 := rfl
    have h2 : pyOrZ (aspRow0.capacity.get 1) 1 = 1 := rfl
    rw [h1, h2]
    norm_num
  · rfl
  · intro rows; simp [detect_orphaned_nat_gateways]
  · exact estimate_nat_gateway_zero
  · rfl
  · intro rows; simp [detect_orphaned_load_balancers]
  · exact estimate_lb_standard_zero
  · rfl
  · intro g rows; simp [detect_unattached_disks]
  · intro g; exact estimate_disk_zero
  · intro g; rfl
  · intro rows; simp [detect_unused_public_ips]
  · rfl
  · rfl
  · intro rows; simp [detect_orphaned_traffic_managers]
  · exact estimate_tm_zero
  · rfl
  · intro rows; simp [detect_orphaned_frontdoor_waf_policies]
  · exact estimate_fd_zero
  · rfl
  · intro rows; simp [detect_orphaned_private_endpoints]
  · exact estimate_pe_eval
  · rfl
  · intro g rows; simp [detect_stopped_vms]
  · intro g; rfl
  · intro g; rfl
  · intro rows; simp [detect_orphaned_nics]
  · show nic_cost nicRow0 = 0
    have h : (pyOrL nicRow0.ipConfigs.getN).any (fun c => c.publicIPAddress) = false := rfl
    unfold nic_cost
    rw [h]
    norm_num [estimate_nic_cost]
  · rfl
  · intro rows; simp [detect_orphaned_nsgs]
  · show estimate_nsg_cost = 0
    norm_num [estimate_nsg_cost]
  · rfl
  · intro rows; simp [detect_orphaned_route_tables]
  · show estimate_route_table_cost = 0
    norm_num [estimate_route_table_cost]
  · rfl
  · intro rows; simp [detect_orphaned_availability_sets]
  · show estimate_availability_set_cost = 0
    norm_num [estimate_availability_set_cost]
  · rfl
  · intro rows; simp [detect_orphaned_ip_groups]
  · show estimate_ip_group_cost = 0
    norm_num [estimate_ip_group_cost]
  · rfl
  · intro rows; simp [detect_orphaned_private_dns_zones]
  · rfl
  · rfl
  · intro rows; simp [detect_empty_resource_groups]
  · show estimate_resource_group_cost = 0
    norm_num [estimate_resource_group_cost]
  · rfl
  · intro rows; simp [detect_failed_api_connections]
  · show estimate_api_connection_cost = 0
    norm_num [estimate_api_connection_cost]
  · rfl
  · intro g rows; simp [detect_expired_certificates]
  · intro g
    show estimate_certificate_cost = 0
    norm_num [estimate_certificate_cost]
  · intro g; rfl

/-- The example row from the spec: a Basic B1 Linux plan with capacity 2
(returned only for plans with zero hosted sites). -/
def aspExampleRow : AspRow :=
  ⟨none, none, none, none, none, .val "B1", .val "Basic", .val "B1", .val 2, .val "app,linux"⟩

/-- C6: on the documented example row the App Service Plan detector
yields cost 110.0 (the per-SKU rate 55.0 times capacity 2) and details
containing "Linux", "SKU: B1", "2 instances", "No apps" in that order. -/
theorem c6_app_service_plan_example :
    (detect_orphaned_app_service_plans [aspExampleRow]).map ResourceRecord.cost = [110.0] ∧
    (detect_orphaned_app_service_plans [aspExampleRow]).map ResourceRecord.details =
      ["Linux" ++ " | " ++ "SKU: B1" ++ " | " ++ "2 instances" ++ " | " ++ "No apps"] ∧
    estimate_app_service_plan_cost "Basic" "B1" = 55.0 := by
  refine ⟨?_, rfl, rfl⟩
  simp only [detect_orphaned_app_service_plans, List.map_cons, List.map_nil,
    List.cons.injEq, and_true]
  show asp_cost aspExampleRow = 110.0
  unfold asp_cost
  have h1 : estimate_app_service_plan_cost (pyOrS (aspExampleRow.tier.get "Basic") "Basic")
      (pyOrS (aspExampleRow.size.get "B1") "B1") = 55.0 := rfl
  have h2 : pyOrZ (aspExampleRow.capacity.get 1) 1 = 2 := rfl
  rw [h1, h2]
  norm_num

/-! ## C8: cost sign -/

theorem estimate_disk_cost_nonneg {n : ℤ} (t : String) (hn : 0 ≤ n) :
    0 ≤ estimate_disk_cost n t := by
  unfold estimate_disk_cost
  apply round2_nonneg
  apply mul_nonneg (by exact_mod_cast hn)
  split_ifs <;> norm_num

theorem estimate_app_gateway_cost_nonneg (t : String) {c : ℤ} (hc : 0 ≤ c) :
    0 ≤ estimate_app_gateway_cost t c := by
  unfold estimate_app_gateway_cost
  apply round2_nonneg
  have hc2 : (0 : ℚ) ≤ (c : ℚ) := by exact_mod_cast hc
  split_ifs <;> nlinarith

theorem estimate_sql_cost_nonneg {d : ℤ} (t : String) (hd : 0 ≤ d) :
    0 ≤ estimate_sql_elastic_pool_cost d t := by
  unfold estimate_sql_elastic_pool_cost
  apply round2_nonneg
  have h1 := estimate_sql_rate_nonneg t
  have hd2 : (0 : ℚ) ≤ (d : ℚ) := by exact_mod_cast hd
  have := mul_nonneg (mul_nonneg hd2 h1) (by norm_num : (0 : ℚ) ≤ 730)
  linarith

theorem estimate_lb_cost_nonneg (sku : String) (r : ℤ) :
    0 ≤ estimate_load_balancer_cost sku r := by
  unfold estimate_load_balancer_cost
  split
  · norm_num
  · apply round2_nonneg
    have h : (0 : ℚ) ≤ ((max 0 (r - 5) : ℤ) : ℚ) := by exact_mod_cast le_max_left 0 (r - 5)
    nlinarith

theorem estimate_fd_cost_nonneg {r : ℤ} (hr : 0 ≤ r) :
    0 ≤ estimate_frontdoor_waf_cost r := by
  unfold estimate_frontdoor_waf_cost
  apply round2_nonneg
  have : (0 : ℚ) ≤ (r : ℚ) := by exact_mod_cast hr
  linarith

/-- A disk row with every field absent except a negative size. -/
def diskRowNeg : DiskRow := ⟨none, none, none, none, none, .val (-100), .miss, .miss, .miss⟩

/-- C8 counterexample: a row with an arbitrary (negative) size attribute
makes the disk detector emit a record with negative cost, so the claimed
invariant over arbitrary-valued attributes does not hold. -/
theorem c8_negative_size_negative_cost :
    (detect_unattached_disks (fun _ => none) [diskRowNeg]).map ResourceRecord.cost =
      [(-5 : ℚ)] ∧
    ¬ (0 : ℚ) ≤ (-5 : ℚ) := by
  constructor
  · simp only [detect_unattached_disks, List.map_cons, List.map_nil, List.cons.injEq, and_true]
    show estimate_disk_cost (pyOrZ (diskRowNeg.diskSizeGB.get 0) 0)
      (pyOrS (diskRowNeg.sku.get "Standard_LRS") "Standard_LRS") = (-5 : ℚ)
    have h1 : pyOrZ (diskRowNeg.diskSizeGB.get 0) 0 = -100 := rfl
    have h2 : pyOrS (diskRowNeg.sku.get "Standard_LRS") "Standard_LRS" = "Standard_LRS" := rfl
    rw [h1, h2]
    unfold estimate_disk_cost
    have h3 : pyIn "premium" (pyLower "Standard_LRS") = false := rfl
    have h4 : pyIn "standardssd" (pyLower "Standard_LRS") = false := rfl
    simp only [h3, h4, Bool.false_eq_true, if_false]
    rw [round2_eq (show ((-100 : ℤ) : ℚ) * 0.05 * 100 = ((-500 : ℤ) : ℚ) by norm_num)]
    norm_num
  · norm_num

/-- C8 (amended): every record a detector emits has nonnegative cost,
provided the row's numeric size/capacity/DTU/rule-count attributes are
nonnegative (as the inventory service returns them); without that
restriction the invariant fails, see the counterexample. -/
theorem c8_cost_nonneg :
    (∀ item : DdosRow, 0 ≤ (ddos_plan_row item).cost) ∧
    (∀ item : AppGwRow, (∀ n : ℤ, item.capacity = Fld.val n → 0 ≤ n) →
      0 ≤ (app_gateway_row item).cost) ∧
    (∀ item : VnetGwRow, 0 ≤ (vnet_gateway_row item).cost) ∧
    (∀ item : SqlPoolRow, (∀ n : ℤ, item.dtu = Fld.val n → 0 ≤ n) →
      0 ≤ (sql_elastic_pool_row item).cost) ∧
    (∀ item : AspRow, (∀ n : ℤ, item.capacity = Fld.val n → 0 ≤ n) →
      0 ≤ (app_service_plan_row item).cost) ∧
    (∀ item : NatGwRow, 0 ≤ (nat_gateway_row item).cost) ∧
    (∀ item : LbRow, 0 ≤ (load_balancer_row item).cost) ∧
    (∀ (g : String → Option ℤ) (item : DiskRow),
      (∀ n : ℤ, item.diskSizeGB = Fld.val n → 0 ≤ n) → 0 ≤ (disk_row g item).cost) ∧
    (∀ item : PubIpRow, 0 ≤ (public_ip_row item).cost) ∧
    (∀ item : TmRow, 0 ≤ (traffic_manager_row item).cost) ∧
    (∀ item : FdWafRow, (∀ n : ℤ, item.customRulesCount = Fld.val n → 0 ≤ n) →
      0 ≤ (frontdoor_waf_row item).cost) ∧
    (∀ item : PeRow, 0 ≤ (private_endpoint_row item).cost) ∧
    (∀ (g : String → Option ℤ) (item : VmRow), 0 ≤ (vm_row g item).cost) ∧
    (∀ item : NicRow, 0 ≤ (nic_row item).cost) ∧
    (∀ item : NsgRow, 0 ≤ (nsg_row item).cost) ∧
    (∀ item : RtRow, 0 ≤ (route_table_row item).cost) ∧
    (∀ item : AvSetRow, 0 ≤ (availability_set_row item).cost) ∧
    (∀ item : IpGroupRow, 0 ≤ (ip_group_row item).cost) ∧
    (∀ item : PdnsRow, 0 ≤ (private_dns_row item).cost) ∧
    (∀ item : RgRow, 0 ≤ (resource_group_row item).cost) ∧
    (∀ item : ApiConnRow, 0 ≤ (api_connection_row item).cost) ∧
    (∀ (g : String → Option ℤ) (item : CertRow), 0 ≤ (certificate_row g item).cost) := by
  refine ⟨?_, ?_, ?_, ?_, ?_, ?_, ?_, ?_, ?_, ?_, ?_, ?_, ?_, ?_, ?_, ?_, ?_, ?_, ?_,
    ?_, ?_, ?_⟩
  · intro item
    show 0 ≤ estimate_ddos_plan_cost
    norm_num [estimate_ddos_plan_cost]
  · intro item h
    exact estimate_app_gateway_cost_nonneg _ (pyOrZ_nonneg (by norm_num) (by norm_num) h)
  · intro item
    exact estimate_vnet_gateway_cost_nonneg _
  · intro item h
    exact estimate_sql_cost_nonneg _ (pyOrZ_nonneg (by norm_num) (by norm_num) h)
  · intro item h
    show 0 ≤ asp_cost item
    unfold asp_cost
    apply mul_nonneg (estimate_app_service_plan_cost_nonneg _ _)
    exact_mod_cast pyOrZ_nonneg (by norm_num) (by norm_num) h
  · intro item
    show 0 ≤ estimate_nat_gateway_cost 0
    rw [estimate_nat_gateway_zero]
    norm_num
  · intro item
    exact estimate_lb_cost_nonneg _ _
  · intro g item h
    exact estimate_disk_cost_nonneg _ (pyOrZ_nonneg (by norm_num) (by norm_num) h)
  · intro item
    exact estimate_public_ip_cost_nonneg _
  · intro item
    show 0 ≤ estimate_traffic_manager_cost 0 0
    rw [estimate_tm_zero]
  · intro item h
    exact estimate_fd_cost_nonneg (pyOrZ_nonneg (by norm_num) (by norm_num) h)
  · intro item
    show 0 ≤ estimate_private_endpoint_cost
    rw [estimate_pe_eval]
    norm_num
  · intro g item
    exact estimate_stopped_vm_cost_nonneg _
  · intro item
    show 0 ≤ nic_cost item
    unfold nic_cost
    have h := estimate_public_ip_cost_nonneg "Standard"
    split_ifs <;> norm_num [estimate_nic_cost] <;> linarith
  · intro item
    show 0 ≤ estimate_nsg_cost
    norm_num [estimate_nsg_cost]
  · intro item
    show 0 ≤ estimate_route_table_cost
    norm_num [estimate_route_table_cost]
  · intro item
    show 0 ≤ estimate_availability_set_cost
    norm_num [estimate_availability_set_cost]
  · intro item
    show 0 ≤ estimate_ip_group_cost
    norm_num [estimate_ip_group_cost]
  · intro item
    show 0 ≤ estimate_private_dns_zone_cost
    norm_num [estimate_private_dns_zone_cost]
  · intro item
    show 0 ≤ estimate_resource_group_cost
    norm_num [estimate_resource_group_cost]
  · intro item
    show 0 ≤ estimate_api_connection_cost
    norm_num [estimate_api_connection_cost]
  · intro g item
    show 0 ≤ estimate_certificate_cost
    norm_num [estimate_certificate_cost]

/-- Display consistency of one record: the pre-rendered cost string is
the formatting of the stored cost, and the stored risk level is the
catalog lookup of the stored type identifier. -/
def DisplayConsistent (r : ResourceRecord) : Prop :=
  r.cost_display = format_cost r.cost ∧ r.risk_level = get_risk_level r.type

/-- C10: every record emitted by every detector is display-consistent:
cost_display equals format_cost of the record cost, and risk_level equals
get_risk_level of the record type. -/
theorem c10_display_consistent :
    (∀ rows : List DdosRow, ∀ r ∈ detect_orphaned_ddos_plans rows, DisplayConsistent r) ∧
    (∀ rows : List AppGwRow, ∀ r ∈ detect_orphaned_app_gateways rows, DisplayConsistent r) ∧
    (∀ rows : List VnetGwRow, ∀ r ∈ detect_orphaned_vnet_gateways rows, DisplayConsistent r) ∧
    (∀ rows : List SqlPoolRow, ∀ r ∈ detect_orphaned_sql_elastic_pools rows, DisplayConsistent r) ∧
    (∀ rows : List AspRow, ∀ r ∈ detect_orphaned_app_service_plans rows, DisplayConsistent r) ∧
    (∀ rows : List NatGwRow, ∀ r ∈ detect_orphaned_nat_gateways rows, DisplayConsistent r) ∧
    (∀ rows : List LbRow, ∀ r ∈ detect_orphaned_load_balancers rows, DisplayConsistent r) ∧
    (∀ (g : String → Option ℤ) (rows : List DiskRow),
      ∀ r ∈ detect_unattached_disks g rows, DisplayConsistent r) ∧
    (∀ rows : List PubIpRow, ∀ r ∈ detect_unused_public_ips rows, DisplayConsistent r) ∧
    (∀ rows : List TmRow, ∀ r ∈ detect_orphaned_traffic_managers rows, DisplayConsistent r) ∧
    (∀ rows : List FdWafRow, ∀ r ∈ detect_orphaned_frontdoor_waf_policies rows, DisplayConsistent r) ∧
    (∀ rows : List PeRow, ∀ r ∈ detect_orphaned_private_endpoints rows, DisplayConsistent r) ∧
    (∀ (g : String → Option ℤ) (rows : List VmRow),
      ∀ r ∈ detect_stopped_vms g rows, DisplayConsistent r) ∧
    (∀ rows : List NicRow, ∀ r ∈ detect_orphaned_nics rows, DisplayConsistent r) ∧
    (∀ rows : List NsgRow, ∀ r ∈ detect_orphaned_nsgs rows, DisplayConsistent r) ∧
    (∀ rows : List RtRow, ∀ r ∈ detect_orphaned_route_tables rows, DisplayConsistent r) ∧
    (∀ rows : List AvSetRow, ∀ r ∈ detect_orphaned_availability_sets rows, DisplayConsistent r) ∧
    (∀ rows : List IpGroupRow, ∀ r ∈ detect_orphaned_ip_groups rows, DisplayConsistent r) ∧
    (∀ rows : List PdnsRow, ∀ r ∈ detect_orphaned_private_dns_zones rows, DisplayConsistent r) ∧
    (∀ rows : List RgRow, ∀ r ∈ detect_empty_resource_groups rows, DisplayConsistent r) ∧
    (∀ rows : List ApiConnRow, ∀ r ∈ detect_failed_api_connections rows, DisplayConsistent r) ∧
    (∀ (g : String → Option ℤ) (rows : List CertRow),
      ∀ r ∈ detect_expired_certificates g rows, DisplayConsistent r) := by
  refine ⟨?_, ?_, ?_, ?_, ?_, ?_, ?_, ?_, ?_, ?_, ?_, ?_, ?_, ?_, ?_, ?_, ?_, ?_, ?_, ?_, ?_, ?_⟩
  · intro rows r hr
    simp only [detect_orphaned_ddos_plans, List.mem_map] at hr
    obtain ⟨row, -, rfl⟩ := hr
    exact ⟨rfl, rfl⟩
  · intro rows r hr
    simp only [detect_orphaned_app_gateways, List.mem_map] at hr
    obtain ⟨row, -, rfl⟩ := hr
    exact ⟨rfl, rfl⟩
  · intro rows r hr
    simp only [detect_orphaned_vnet_gateways, List.mem_map] at hr
    obtain ⟨row, -, rfl⟩ := hr
    exact ⟨rfl, rfl⟩
  · intro rows r hr
    simp only [detect_orphaned_sql_elastic_pools, List.mem_map] at hr
    obtain ⟨row, -, rfl⟩ := hr
    exact ⟨rfl, rfl⟩
  · intro rows r hr
    simp only [detect_orphaned_app_service_plans, List.mem_map] at hr
    obtain ⟨row, -, rfl⟩ := hr
    exact ⟨rfl, rfl⟩
  · intro rows r hr
    simp only [detect_orphaned_nat_gateways, List.mem_map] at hr
    obtain ⟨row, -, rfl⟩ := hr
    exact ⟨rfl, rfl⟩
  · intro rows r hr
    simp only [detect_orphaned_load_balancers, List.mem_map] at hr
    obtain ⟨row, -, rfl⟩ := hr
    exact ⟨rfl, rfl⟩
  · intro g rows r hr
    simp only [detect_unattached_disks, List.mem_map] at hr
    obtain ⟨row, -, rfl⟩ := hr
    exact ⟨rfl, rfl⟩
  · intro rows r hr
    simp only [detect_unused_public_ips, List.mem_map] at hr
    obtain ⟨row, -, rfl⟩ := hr
    exact ⟨rfl, rfl⟩
  · intro rows r hr
    simp only [detect_orphaned_traffic_managers, List.mem_map] at hr
    obtain ⟨row, -, rfl⟩ := hr
    exact ⟨rfl, rfl⟩
  · intro rows r hr
    simp only [detect_orphaned_frontdoor_waf_policies, List.mem_map] at hr
    obtain ⟨row, -, rfl⟩ := hr
    exact ⟨rfl, rfl⟩
  · intro rows r hr
    simp only [detect_orphaned_private_endpoints, List.mem_map] at hr
    obtain ⟨row, -, rfl⟩ := hr
    exact ⟨rfl, rfl⟩
  · intro g rows r hr
    simp only [detect_stopped_vms, List.mem_map] at hr
    obtain ⟨row, -, rfl⟩ := hr
    exact ⟨rfl, rfl⟩
  · intro rows r hr
    simp only [detect_orphaned_nics, List.mem_map] at hr
    obtain ⟨row, -, rfl⟩ := hr
    exact ⟨rfl, rfl⟩
  · intro rows r hr
    simp only [detect_orphaned_nsgs, List.mem_map] at hr
    obtain ⟨row, -, rfl⟩ := hr
    exact ⟨rfl, rfl⟩
  · intro rows r hr
    simp only [detect_orphaned_route_tables, List.mem_map] at hr
    obtain ⟨row, -, rfl⟩ := hr
    exact ⟨rfl, rfl⟩
  · intro rows r hr
    simp only [detect_orphaned_availability_sets, List.mem_map] at hr
    obtain ⟨row, -, rfl⟩ := hr
    exact ⟨rfl, rfl⟩
  · intro rows r hr
    simp only [detect_orphaned_ip_groups, List.mem_map] at hr
    obtain ⟨row, -, rfl⟩ := hr
    exact ⟨rfl, rfl⟩
  · intro rows r hr
    simp only [detect_orphaned_private_dns_zones, List.mem_map] at hr
    obtain ⟨row, -, rfl⟩ := hr
    exact ⟨rfl, rfl⟩
  · intro rows r hr
    simp only [detect_empty_resource_groups, List.mem_map] at hr
    obtain ⟨row, -, rfl⟩ := hr
    exact ⟨rfl, rfl⟩
  · intro rows r hr
    simp only [detect_failed_api_connections, List.mem_map] at hr
    obtain ⟨row, -, rfl⟩ := hr
    exact ⟨rfl, rfl⟩
  · intro g rows r hr
    simp only [detect_expired_certificates, List.mem_map] at hr
    obtain ⟨row, -, rfl⟩ := hr
    exact ⟨rfl, rfl⟩

end AzPrune
